import Mathlib

/-!
Verification development for the `mixpanel-dwh` ingestion middleware.

The definitions below are a shallow embedding of the Snowflake warehouse
adapter (`src/middleware/snowflake.js`), the S3 adapter, and the logger.
JavaScript runtime values are modelled by the inductive `Value`; records
(flat JS objects) are association lists; the backend (Snowflake, S3) is
modelled by oracles giving the outcome of each network call; asynchronous
functions that can reject are modelled with `Except`.  Each adapter
function additionally returns the trace of backend calls it issued, in
order, so that claims about "no backend call" are statable.
-/

set_option maxHeartbeats 1000000
set_option maxRecDepth 100000

namespace MixpanelDWH

/-- JavaScript runtime values as the middleware manipulates them:
`null`, `undefined`, booleans, numbers (modelled as integers; no claim
here involves float behaviour), strings, arrays and plain objects. -/
inductive Value where
  | vNull
  | vUndef
  | vBool (b : Bool)
  | vNum (n : Int)
  | vStr (s : String)
  | vArr (elems : List Value)
  | vObj (fields : List (String × Value))
deriving Repr

mutual

/-- Decidable equality for `Value`, written by hand because the deriving
handler does not cover this nested inductive. -/
def Value.decEq : (a b : Value) → Decidable (a = b)
  | .vNull, .vNull => isTrue rfl
  | .vNull, .vUndef => isFalse (fun h => Value.noConfusion h)
  | .vNull, .vBool _ => isFalse (fun h => Value.noConfusion h)
  | .vNull, .vNum _ => isFalse (fun h => Value.noConfusion h)
  | .vNull, .vStr _ => isFalse (fun h => Value.noConfusion h)
  | .vNull, .vArr _ => isFalse (fun h => Value.noConfusion h)
  | .vNull, .vObj _ => isFalse (fun h => Value.noConfusion h)
  | .vUndef, .vNull => isFalse (fun h => Value.noConfusion h)
  | .vUndef, .vUndef => isTrue rfl
  | .vUndef, .vBool _ => isFalse (fun h => Value.noConfusion h)
  | .vUndef, .vNum _ => isFalse (fun h => Value.noConfusion h)
  | .vUndef, .vStr _ => isFalse (fun h => Value.noConfusion h)
  | .vUndef, .vArr _ => isFalse (fun h => Value.noConfusion h)
  | .vUndef, .vObj _ => isFalse (fun h => Value.noConfusion h)
  | .vBool _, .vNull => isFalse (fun h => Value.noConfusion h)
  | .vBool _, .vUndef => isFalse (fun h => Value.noConfusion h)
  | .vBool a, .vBool b =>
      if h : a = b then isTrue (by rw [h]) else isFalse (by intro e; injection e; contradiction)
  | .vBool _, .vNum _ => isFalse (fun h => Value.noConfusion h)
  | .vBool _, .vStr _ => isFalse (fun h => Value.noConfusion h)
  | .vBool _, .vArr _ => isFalse (fun h => Value.noConfusion h)
  | .vBool _, .vObj _ => isFalse (fun h => Value.noConfusion h)
  | .vNum _, .vNull => isFalse (fun h => Value.noConfusion h)
  | .vNum _, .vUndef => isFalse (fun h => Value.noConfusion h)
  | .vNum _, .vBool _ => isFalse (fun h => Value.noConfusion h)
  | .vNum a, .vNum b =>
      if h : a = b then isTrue (by rw [h]) else isFalse (by intro e; injection e; contradiction)
  | .vNum _, .vStr _ => isFalse (fun h => Value.noConfusion h)
  | .vNum _, .vArr _ => isFalse (fun h => Value.noConfusion h)
  | .vNum _, .vObj _ => isFalse (fun h => Value.noConfusion h)
  | .vStr _, .vNull => isFalse (fun h => Value.noConfusion h)
  | .vStr _, .vUndef => isFalse (fun h => Value.noConfusion h)
  | .vStr _, .vBool _ => isFalse (fun h => Value.noConfusion h)
  | .vStr _, .vNum _ => isFalse (fun h => Value.noConfusion h)
  | .vStr a, .vStr b =>
      if h : a = b then isTrue (by rw [h]) else isFalse (by intro e; injection e; contradiction)
  | .vStr _, .vArr _ => isFalse (fun h => Value.noConfusion h)
  | .vStr _, .vObj _ => isFalse (fun h => Value.noConfusion h)
  | .vArr _, .vNull => isFalse (fun h => Value.noConfusion h)
  | .vArr _, .vUndef => isFalse (fun h => Value.noConfusion h)
  | .vArr _, .vBool _ => isFalse (fun h => Value.noConfusion h)
  | .vArr _, .vNum _ => isFalse (fun h => Value.noConfusion h)
  | .vArr _, .vStr _ => isFalse (fun h => Value.noConfusion h)
  | .vArr a, .vArr b =>
      match Value.decEqL a b with
      | isTrue h => isTrue (by rw [h])
      | isFalse h => isFalse (by intro e; injection e; contradiction)
  | .vArr _, .vObj _ => isFalse (fun h => Value.noConfusion h)
  | .vObj _, .vNull => isFalse (fun h => Value.noConfusion h)
  | .vObj _, .vUndef => isFalse (fun h => Value.noConfusion h)
  | .vObj _, .vBool _ => isFalse (fun h => Value.noConfusion h)
  | .vObj _, .vNum _ => isFalse (fun h => Value.noConfusion h)
  | .vObj _, .vStr _ => isFalse (fun h => Value.noConfusion h)
  | .vObj _, .vArr _ => isFalse (fun h => Value.noConfusion h)
  | .vObj a, .vObj b =>
      match Value.decEqF a b with
      | isTrue h => isTrue (by rw [h])
      | isFalse h => isFalse (by intro e; injection e; contradiction)

/-- Decidable equality for lists of `Value`. -/
def Value.decEqL : (a b : List Value) → Decidable (a = b)
  | [], [] => isTrue rfl
  | [], _ :: _ => isFalse (fun h => List.noConfusion h)
  | _ :: _, [] => isFalse (fun h => List.noConfusion h)
  | x :: xs, y :: ys =>
      match Value.decEq x y with
      | isFalse h => isFalse (by intro e; injection e; contradiction)
      | isTrue h1 =>
        match Value.decEqL xs ys with
        | isTrue h2 => isTrue (by rw [h1, h2])
        | isFalse h => isFalse (by intro e; injection e; contradiction)

/-- Decidable equality for key/value field lists. -/
def Value.decEqF : (a b : List (String × Value)) → Decidable (a = b)
  | [], [] => isTrue rfl
  | [], _ :: _ => isFalse (fun h => List.noConfusion h)
  | _ :: _, [] => isFalse (fun h => List.noConfusion h)
  | (k, v) :: xs, (k2, v2) :: ys =>
      if hk : k = k2 then
        match Value.decEq v v2 with
        | isFalse h => isFalse (by intro e; injection e with e1 e2; injection e1; contradiction)
        | isTrue h1 =>
          match Value.decEqF xs ys with
          | isTrue h2 => isTrue (by rw [hk, h1, h2])
          | isFalse h => isFalse (by intro e; injection e; contradiction)
      else isFalse (by intro e; injection e with e1 e2; injection e1; contradiction)

end

instance : DecidableEq Value := Value.decEq

/-- A flat record: a JS object as an association list, in key order. -/
abbrev RecordV := List (String × Value)

/-- JS property read `row[k]`: first binding of `k`, else `undefined`. -/
def getV (r : RecordV) (k : String) : Value :=
  match r.find? (fun p => p.1 = k) with
  | some p => p.2
  | none => Value.vUndef

/-- JS property write `row[k] = v`: update in place if the key exists
(preserving key order), else append the new key. -/
def setV (r : RecordV) (k : String) (v : Value) : RecordV :=
  if r.any (fun p => p.1 = k) then
    r.map (fun p => if p.1 = k then (k, v) else p)
  else r ++ [(k, v)]

/-- JS truthiness of a value. -/
def truthy : Value → Bool
  | .vNull => false
  | .vUndef => false
  | .vBool b => b
  | .vNum n => n != 0
  | .vStr s => s ≠ ""
  | .vArr _ => true
  | .vObj _ => true

/-- JS `value.toString()` for the values that reach it in
`formatBindValue` (the null/undefined cases are short-circuited away by
optional chaining before `toString` is called). -/
def jsToString : Value → String
  | .vNull => "null"
  | .vUndef => "undefined"
  | .vBool b => if b then "true" else "false"
  | .vNum n => toString n
  | .vStr s => s
  | .vArr xs => String.intercalate "," (xs.map fun v =>
      match v with
      | .vNull => ""
      | .vUndef => ""
      | .vStr s => s
      | .vBool b => if b then "true" else "false"
      | .vNum n => toString n
      | _ => "")
  | .vObj _ => "[object Object]"

/-- ASCII lower-casing of one character, structurally recursive so that
proofs can evaluate it (JS `toLowerCase` over the ASCII column names the
adapter uses). -/
def lowerChar (c : Char) : Char :=
  if 'A' ≤ c ∧ c ≤ 'Z' then Char.ofNat (c.toNat + 32) else c

/-- ASCII lower-casing of a string (JS `toLowerCase`). -/
def lowerStr (s : String) : String := String.mk (s.data.map lowerChar)

/-- ASCII upper-casing of one character (JS `toUpperCase`). -/
def upperChar (c : Char) : Char :=
  if 'a' ≤ c ∧ c ≤ 'z' then Char.ofNat (c.toNat - 32) else c

/-- ASCII upper-casing of a string (JS `toUpperCase`). -/
def upperStr (s : String) : String := String.mk (s.data.map upperChar)

/-- The whitespace JS `trim` strips, restricted to the ASCII characters
the model uses. -/
def isJsSpace (c : Char) : Bool := c = ' ' ∨ c = '\t' ∨ c = '\n' ∨ c = '\r'

/-- JS `String.prototype.trim`. -/
def trimStr (s : String) : String :=
  String.mk (((s.data.dropWhile isJsSpace).reverse.dropWhile isJsSpace).reverse)

/-- Character-list prefix test, structural. -/
def isPrefixOfChars : List Char → List Char → Bool
  | [], _ => true
  | _ :: _, [] => false
  | a :: as, b :: bs => a = b && isPrefixOfChars as bs

/-- Character-list substring test, structural. -/
def hasSubChars (pat : List Char) : List Char → Bool
  | [] => pat.isEmpty
  | c :: rest => isPrefixOfChars pat (c :: rest) || hasSubChars pat rest

/-- The characters before the first occurrence of `pat`, structural. -/
def takeUntilChars (pat : List Char) : List Char → List Char
  | [] => []
  | c :: rest =>
    if isPrefixOfChars pat (c :: rest) then []
    else c :: takeUntilChars pat rest

/-- JS `s.includes(pat)`: substring containment. -/
def strContains (s pat : String) : Bool := hasSubChars pat.data s.data

/-- A schema column: `{name, type}` where `type` ranges over the backend
type vocabulary, one member of which is the variant marker `VARIANT`. -/
structure Field where
  name : String
  type : String
deriving Repr, DecidableEq

/-- Ordered column list of one table. -/
abbrev Schema := List Field

/-- External JS primitive `JSON.parse` (a host builtin, not repository
code): modelled as an abstract partial parser.  `parse s = some v` means
`JSON.parse(s)` returns `v`; `none` means it throws.  The library
predicate `u.isJSONStr` (from the external `ak-tools` dependency) is
modelled as "the parse succeeds". -/
structure JsonPrims where
  parse : String → Option Value

/-- `u.isJSONStr(value)` for a string, modelled via `JsonPrims`. -/
def isJSONStr (P : JsonPrims) (s : String) : Bool :=
  (P.parse s).isSome

/-- The null-like test of `formatBindValue`
(`snowflake.js:925`): `value === null || value === undefined ||
value === "null" || value === "" || value?.toString()?.trim() === ""`. -/
def isNullLikeBind (v : Value) : Bool :=
  match v with
  | .vNull => true
  | .vUndef => true
  | .vStr s => s = "null" || s = "" || trimStr s = ""
  | _ => trimStr (jsToString v) = ""

/-- `formatBindValue(value, type)` (`snowflake.js:924-950`): null-like
values become actual null; `VARIANT` columns pass through untouched;
other strings that parse as JSON are replaced by the parse result (with
the original string kept if the parse throws); everything else passes
through. -/
def formatBindValue (P : JsonPrims) (value : Value) (ty : String) : Value :=
  if isNullLikeBind value then Value.vNull
  else if ty = "VARIANT" then value
  else
    match value with
    | .vStr s =>
        if isJSONStr P s then
          match P.parse s with
          | some parsed => parsed
          | none => Value.vStr s
        else Value.vStr s
    | v => v

/-- The null-like test of the normalization loop in `prepareComplexRows`
(`snowflake.js:916`): `value === null || value === undefined ||
value === "null" || value === ""` (no trim check in this one). -/
def isNullLikeRow (v : Value) : Bool :=
  match v with
  | .vNull => true
  | .vUndef => true
  | .vStr s => s = "null" || s = ""
  | _ => false

/-- One field of the final normalization loop of `prepareComplexRows`
(`snowflake.js:914-919`). -/
def normEntry (p : String × Value) : String × Value :=
  if isNullLikeRow p.2 then (p.1, Value.vNull) else p

/-- The per-column repair step of `prepareComplexRows`
(`snowflake.js:902-912`): when the value at the variant column is truthy
and a string, replace it by its parse (keeping it when the parse
throws). -/
def repairStep (P : JsonPrims) (r : RecordV) (col : Field) : RecordV :=
  if truthy (getV r col.name) then
    match getV r col.name with
    | .vStr s =>
        match P.parse s with
        | some v => setV r col.name v
        | none => r
    | _ => r
  else r

/-- `prepareComplexRows(row, schema)` (`snowflake.js:900-922`) as a value
transformation: fold the repair step over the variant columns, then map
every null-like field of the row to actual null.  In the source this is
done by assignment into `row` itself; the aliasing consequences are
captured by `jsBatchShapeVariant` below. -/
def prepareComplexRows (P : JsonPrims) (row : RecordV) (schema : Schema) : RecordV :=
  let variantCols := schema.filter (fun f => f.type = "VARIANT")
  ((variantCols.foldl (repairStep P) row).map normEntry)

/-- The heap of record objects a batch aliases: slot `i` holds the object
state of the i-th record. -/
abbrev BatchHeap := List RecordV

/-- Effect on the batch of `batch.map(row => prepareComplexRows(row, schema))`
(`snowflake.js:560`).  In JS, `prepareComplexRows` assigns into `row` and
returns the same object, so after the call every slot of the original
batch holds the rewritten record: the mapped array and the input batch
alias the same (now mutated) objects. -/
def jsBatchShapeVariant (P : JsonPrims) (schema : Schema) (heap : BatchHeap) : BatchHeap :=
  heap.map (fun r => prepareComplexRows P r schema)

/-- Effect on the batch of the non-variant shaping
`batch.map(row => schema.map(f => formatBindValue(row[f.name], f.type)))`
(`snowflake.js:564`): it only reads `row`, so every record object is left
exactly as it was. -/
def jsBatchShapeNonVariant (_P : JsonPrims) (_schema : Schema) (heap : BatchHeap) : BatchHeap :=
  heap

/-- The bind rows produced by the non-variant branch. -/
def nonVariantBinds (P : JsonPrims) (batch : List RecordV) (schema : Schema) : List (List Value) :=
  batch.map (fun row => schema.map (fun f => formatBindValue P (getV row f.name) f.type))

/-- One select-list element of the variant insert statement
(`snowflake.js:966-974`; the source's two branches emit the same text). -/
def variantSelectPart (f : Field) : String :=
  if f.type = "VARIANT" then "value:" ++ lowerStr f.name ++ " AS " ++ f.name
  else "value:" ++ lowerStr f.name ++ " AS " ++ f.name

/-- `prepareInsertSQL(schema, tableName)` (`snowflake.js:961-988`):
returns the statement text and whether the variant branch was taken. -/
def prepareInsertSQL (schema : Schema) (tableName : String) : String × Bool :=
  let hasVariant := schema.any (fun f => f.type = "VARIANT")
  if hasVariant then
    ("INSERT INTO " ++ tableName ++ " SELECT "
      ++ String.intercalate ", " (schema.map variantSelectPart)
      ++ " FROM TABLE(FLATTEN(PARSE_JSON(?)))", true)
  else
    ("INSERT INTO " ++ tableName ++ " ("
      ++ String.intercalate ", " (schema.map (fun f => f.name))
      ++ ") VALUES ("
      ++ String.intercalate ", " (schema.map (fun _ => "?"))
      ++ ")", false)

/-- One column mapping of the `COPY INTO` bulk-load statement
(`snowflake.js:618`): `$1:<lowercased name> AS <original name>`. -/
def copyColumnMapping (col : Field) : String :=
  "$1:" ++ lowerStr col.name ++ " AS " ++ col.name

/-- Outcome of one backend statement execution, as the driver callback
delivers it: a row set, or an error object carrying the fields the
middleware inspects (`err.code`, `err.name`, `err.message` and
`err.data.errorCode / sqlState / type`). -/
inductive SqlOutcome where
  | rows (rs : List RecordV)
  | fail (code : String) (nm : String) (msg : String)
         (dErrorCode : String) (dSqlState : String) (dType : String)
deriving Repr, DecidableEq

/-- The remote Snowflake backend and the non-SQL host calls, modelled as a
deterministic oracle: `sql` gives the outcome of each statement by its
text; the Booleans give the outcomes of the driver-level calls.  `uid`
stands for the random file-name suffix `uid(18)` and `today` for the
date stamp, both fixed for the modelled call. -/
structure Oracle where
  sql : String → SqlOutcome
  connectOk : Bool
  isValidOk : Bool
  snowpipeCreateOk : Bool
  insertFileOk : Bool
  insertFileErrMsg : String
  uid : String
  today : String

/-- `executeSQL(sql, binds, neverThrow)` (`snowflake.js:864-892`): on an
error outcome, with `neverThrow` the error object is resolved as the
result; otherwise error code `000625` / name `OperationFailedError` with
a message mentioning a locked table rejects as `TableLockedError`
(signalling a retry), and any other error rejects with its message.
Binds do not alter which statement is executed, so they are not part of
the oracle key. -/
def executeSQL (O : Oracle) (sql : String) (neverThrow : Bool) : Except String SqlOutcome :=
  match O.sql sql with
  | .rows rs => .ok (.rows rs)
  | .fail code nm msg ec ss ty =>
    if neverThrow then .ok (.fail code nm msg ec ss ty)
    else if code = "000625" ∧ nm = "OperationFailedError" ∧ strContains msg "has locked table" then
      .error "TableLockedError"
    else .error msg

/-- The `InsertResult` record a write strategy resolves with.  Wall-clock
`duration`/timing metadata is not modelled. -/
structure InsertResultV where
  status : String
  dest : Option String := none
  insertedRows : Int := 0
  failedRows : Int := 0
  methodTag : Option String := none
  errorMessage : Option String := none
deriving Repr, DecidableEq

/-- The three logical destination identifiers. -/
structure TableNames where
  eventTable : String
  userTable : String
  groupTable : String
deriving Repr, DecidableEq

/-- The Snowflake environment configuration the adapter destructures from
`process.env` on every `initializeSnowflake` call; `none` is an unset
variable. -/
structure SfConfig where
  account : Option String := none
  user : Option String := none
  password : Option String := none
  database : Option String := none
  schemaName : Option String := none
  warehouse : Option String := none
  role : Option String := none
  accessUrl : Option String := none
  stage : Option String := none
  pipe : Option String := none
  privateKey : Option String := none
  region : Option String := none
  provider : Option String := none
  task : Option String := none
  taskSchedule : Option String := none
deriving Repr, DecidableEq

/-- JS truthiness of an env string variable (`undefined` and the empty
string are falsy). -/
def cfgTruthy : Option String → Bool
  | some s => s ≠ ""
  | none => false

/-- JS template interpolation of an env variable: `undefined` renders as
the string `"undefined"` (as in `` `${snowflake_pipe}_${table}` `` with
`snowflake_pipe` unset). -/
def optStr : Option String → String
  | some s => s
  | none => "undefined"

/-- The module-level readiness flags and the transport variable of the
Snowflake adapter (`snowflake.js:59-79`), all initially falsy /
`"none"`. -/
structure SfState where
  isConnectionReady : Bool := false
  isDatasetReady : Bool := false
  areTablesReady : Bool := false
  isStageReady : Bool := false
  isPipeReady : Bool := false
  isSnowPipeReady : Bool := false
  transport : String := "none"
deriving Repr, DecidableEq

/-- Modelled from the spec: the Schema Registry entries live in
`snowflake-schemas.js`, which is not among the provided sources.  Per the
spec (sections 2 and 8) each record kind maps to an ordered list of typed
columns whose semi-structured `properties` column carries the variant
marker; the concrete scalar columns here are representative. -/
def eventsSchema : Schema :=
  [⟨"event_name", "STRING"⟩, ⟨"event_time", "TIMESTAMP"⟩, ⟨"properties", "VARIANT"⟩]

/-- Modelled from the spec: see `eventsSchema`. -/
def usersSchema : Schema :=
  [⟨"distinct_id", "STRING"⟩, ⟨"properties", "VARIANT"⟩]

/-- Modelled from the spec: see `eventsSchema`. -/
def groupsSchema : Schema :=
  [⟨"group_key", "STRING"⟩, ⟨"properties", "VARIANT"⟩]

/-- `getSnowflakeSchema(type)` (`snowflake.js:842-854`): registry lookup,
throwing `Invalid Record Type` when the kind is not mapped. -/
def getSnowflakeSchema (ty : String) : Except String Schema :=
  if ty = "event" ∨ ty = "track" then .ok eventsSchema
  else if ty = "user" ∨ ty = "engage" then .ok usersSchema
  else if ty = "group" ∨ ty = "groups" then .ok groupsSchema
  else .error "Invalid Record Type"

/-- The temp-file directory (`TEMP_DIR`); its concrete path does not
matter to any claim. -/
def tempDir : String := "/tmp"

/-- The staged-file name `<table>_<YYYY-MM-DD>_<random-suffix>.json`
built by the `copy`/`pipe`/`put` strategies (`snowflake.js:597,665,725`). -/
def stagedFileName (O : Oracle) (table : String) : String :=
  table ++ "_" ++ O.today ++ "_" ++ O.uid ++ ".json"

/-- `insertData(batch, table, schema)` (`snowflake.js:551-584`): builds
the statement via `prepareInsertSQL`, executes it once, and never
rejects — an execution error becomes a terminal `error` result with
`insertedRows = 0` and `failedRows = batch.length`.  On success the
inserted count is the driver-reported `number of rows inserted` (`|| 0`),
and `failedRows = batch.length - insertedRows`.  The second component is
the trace of backend calls. -/
def insertData (O : Oracle) (transport : String)
    (batch : List RecordV) (table : String) (schema : Schema) :
    InsertResultV × List String :=
  let insertSQL := (prepareInsertSQL schema table).1
  match executeSQL O insertSQL false with
  | .ok res =>
      let insertedRows : Int :=
        match res with
        | .rows rs =>
            (match getV (rs.headD []) "number of rows inserted" with
             | .vNum n => n
             | _ => 0)
        | .fail _ _ _ _ _ _ => 0
      ({ status := "success", dest := some "snowflake", insertedRows := insertedRows,
         failedRows := (batch.length : Int) - insertedRows,
         methodTag := some transport }, [insertSQL])
  | .error msg =>
      ({ status := "error", dest := some "snowflake", insertedRows := 0,
         failedRows := (batch.length : Int),
         errorMessage := some msg }, [insertSQL])

/-- `copyIntoData(batch, table, schema)` (`snowflake.js:593-651`): PUT the
serialized batch into the stage, COPY INTO the table with the lower-cased
column mapping, then REMOVE the staged file; a failure of any of the
three statements rethrows (after local temp-file cleanup, which is not
modelled as it touches only the local disk).  On the full success path
the result reports optimistic full success. -/
def copyIntoData (O : Oracle) (stage : String) (transport : String)
    (batch : List RecordV) (table : String) (schema : Schema) :
    Except String InsertResultV × List String :=
  let fileName := stagedFileName O table
  let stageName := "@" ++ stage
  let putCommand := "PUT file://" ++ tempDir ++ "/" ++ fileName ++ " " ++ stageName
  match executeSQL O putCommand false with
  | .error e => (.error e, [putCommand])
  | .ok _ =>
    let columnMappings := String.intercalate ", " (schema.map copyColumnMapping)
    let copyCommand := "COPY INTO " ++ table ++ " FROM ( SELECT " ++ columnMappings
        ++ " FROM " ++ stageName ++ "/" ++ fileName ++ " ) FILE_FORMAT = (TYPE = 'JSON')"
    match executeSQL O copyCommand false with
    | .error e => (.error e, [putCommand, copyCommand])
    | .ok _ =>
      let removeCommand := "REMOVE " ++ stageName ++ "/" ++ fileName
      match executeSQL O removeCommand false with
      | .error e => (.error e, [putCommand, copyCommand, removeCommand])
      | .ok _ =>
        (.ok { status := "success", insertedRows := (batch.length : Int), failedRows := 0,
               methodTag := some transport }, [putCommand, copyCommand, removeCommand])

/-- `insertWithPipe(batch, table, schema)` (`snowflake.js:661-711`): PUT
into the shared stage, then notify the streaming-ingest client
(`snowpipeAPI.insertFile`) naming the per-table pipe; optimistic full
success; the staged file is deliberately not removed. -/
def insertWithPipe (O : Oracle) (database schemaName pipe stage : String) (transport : String)
    (batch : List RecordV) (table : String) (_schema : Schema) :
    Except String InsertResultV × List String :=
  let fileName := stagedFileName O table ++ ".gz"
  let stageName := "@" ++ stage
  let putCommand := "PUT file://" ++ tempDir ++ "/" ++ stagedFileName O table ++ " " ++ stageName
  match executeSQL O putCommand false with
  | .error e => (.error e, [putCommand])
  | .ok _ =>
    let pipeName := database ++ "." ++ schemaName ++ "." ++ pipe ++ "_" ++ table
    let notifyCall := "snowpipe:insertFile:" ++ pipeName ++ ":" ++ fileName
    if O.insertFileOk then
      (.ok { status := "success", insertedRows := (batch.length : Int), failedRows := 0,
             methodTag := some transport }, [putCommand, notifyCall])
    else
      (.error O.insertFileErrMsg, [putCommand, notifyCall])

/-- `insertWithPut(batch, table, schema)` (`snowflake.js:721-749`): PUT
into the shared stage only; no load statement at all; optimistic full
success. -/
def insertWithPut (O : Oracle) (stage : String) (transport : String)
    (batch : List RecordV) (table : String) (_schema : Schema) :
    Except String InsertResultV × List String :=
  let stageName := "@" ++ stage
  let putCommand := "PUT file://" ++ tempDir ++ "/" ++ stagedFileName O table ++ " " ++ stageName
  match executeSQL O putCommand false with
  | .error e => (.error e, [putCommand])
  | .ok _ =>
    (.ok { status := "success", insertedRows := (batch.length : Int), failedRows := 0,
           methodTag := some transport }, [putCommand])

/-- `createSnowflakeConnection()` (`snowflake.js:274-309`): fail fast if
any required credential is falsy, then attempt the driver connection;
the promise resolves `true`/`false` and never rejects from the connect
callback. -/
def createSnowflakeConnection (cfg : SfConfig) (O : Oracle) : Except String Bool × List String :=
  if !cfgTruthy cfg.account then (.error "snowflake_account is required", [])
  else if !cfgTruthy cfg.user then (.error "snowflake_user is required", [])
  else if !cfgTruthy cfg.password then (.error "snowflake_password is required", [])
  else if !cfgTruthy cfg.database then (.error "snowflake_database is required", [])
  else if !cfgTruthy cfg.schemaName then (.error "snowflake_schema is required", [])
  else if !cfgTruthy cfg.warehouse then (.error "snowflake_warehouse is required", [])
  else if !cfgTruthy cfg.role then (.error "snowflake_role is required", [])
  else (.ok O.connectOk, ["connect"])

/-- `getCurrentUser()` (`snowflake.js:823-839`): two diagnostic queries;
any failure is caught and yields `null`. -/
def getCurrentUser (O : Oracle) : Value × List String :=
  let q1 := "SELECT CURRENT_USER()"
  match executeSQL O q1 false with
  | .error _ => (.vNull, [q1])
  | .ok (.fail _ _ _ _ _ _) => (.vNull, [q1])
  | .ok (.rows rs) =>
      match rs with
      | [] => (.vNull, [q1])
      | r0 :: _ =>
        let currentUser := match r0 with
          | [] => Value.vUndef
          | (_, v) :: _ => v
        let q2 := "SHOW USERS LIKE '" ++ jsToString currentUser ++ "'"
        match executeSQL O q2 false with
        | .error _ => (.vNull, [q1, q2])
        | .ok (.fail _ _ _ _ _ _) => (.vNull, [q1, q2])
        | .ok (.rows rs2) =>
            (match rs2.getLast? with
             | some r => Value.vObj r
             | none => Value.vUndef, [q1, q2])

/-- The database-creation statement of `verifyOrCreateDatabase`
(`snowflake.js:336`). -/
def createDatabaseSQL (databaseName : String) : String :=
  "CREATE OR REPLACE DATABASE " ++ databaseName

/-- The schema-creation statement of `verifyOrCreateDatabase`
(`snowflake.js:354`): plain `CREATE SCHEMA`, with neither `OR REPLACE`
nor `IF NOT EXISTS`. -/
def createSchemaSQL (databaseName schemaName : String) : String :=
  "CREATE SCHEMA " ++ databaseName ++ "." ++ schemaName

/-- The table-creation statement of `createTable` (`snowflake.js:473`). -/
def createTableSQL (tableName sqlSchema : String) : String :=
  "CREATE OR REPLACE TABLE " ++ tableName ++ " (" ++ sqlSchema ++ ")"

/-- The stage-creation statement of `verifyOrCreateStage`
(`snowflake.js:409`). -/
def createStageSQL (stage : String) : String :=
  "CREATE OR REPLACE STAGE " ++ stage ++ " FILE_FORMAT = (TYPE = 'JSON') DIRECTORY = (ENABLE = TRUE)"

/-- The per-table pipe-creation statement of `verifyOrCreatePipe`
(`snowflake.js:440-449`), with the template literal's layout collapsed to
single spaces. -/
def createPipeSQL (pipe table stage : String) (schema : Schema) : String :=
  "CREATE OR REPLACE PIPE " ++ pipe ++ "_" ++ table ++ " AUTO_INGEST = FALSE AS COPY INTO "
    ++ table ++ " FROM ( SELECT "
    ++ String.intercalate ", " (schema.map copyColumnMapping)
    ++ " FROM @" ++ stage ++ " ) FILE_FORMAT = (TYPE = 'JSON') ON_ERROR = 'CONTINUE'"

/-- `verifyOrCreateDatabase()` (`snowflake.js:320-369`): check the
database by a COUNT query (`neverThrow`), create it when absent; check
the schema via `SHOW SCHEMAS`, create it when absent; switch the session
to the schema; return `true`. -/
def verifyOrCreateDatabase (cfg : SfConfig) (O : Oracle) : Except String Bool × List String :=
  let databaseName := optStr cfg.database
  let schemaName := optStr cfg.schemaName
  let checkDatabaseQuery := "SELECT COUNT(*) AS count FROM " ++ upperStr databaseName
      ++ ".INFORMATION_SCHEMA.DATABASES WHERE DATABASE_NAME = '" ++ upperStr databaseName ++ "'"
  match executeSQL O checkDatabaseQuery true with
  | .error e => (.error e, [checkDatabaseQuery])
  | .ok checkResult =>
    let databaseExists :=
      match checkResult with
      | .fail _ _ msg _ _ _ =>
          if strContains msg ("Database '" ++ upperStr databaseName
              ++ "' does not exist or not authorized.") then false
          else false
      | .rows rs =>
          match getV (rs.headD []) "COUNT" with
          | .vNum n => decide (0 < n)
          | _ => false
    let afterCreate : Except String Unit × List String :=
      if !databaseExists then
        match executeSQL O (createDatabaseSQL databaseName) false with
        | .error e => (.error e, [checkDatabaseQuery, createDatabaseSQL databaseName])
        | .ok _ => (.ok (), [checkDatabaseQuery, createDatabaseSQL databaseName])
      else (.ok (), [checkDatabaseQuery])
    match afterCreate with
    | (.error e, tr) => (.error e, tr)
    | (.ok _, tr) =>
      let checkSchemaQuery := "SHOW SCHEMAS IN DATABASE " ++ databaseName
      match executeSQL O checkSchemaQuery false with
      | .error e => (.error e, tr ++ [checkSchemaQuery])
      | .ok (.fail _ _ _ _ _ _) => (.error "Failed to check schema existence", tr ++ [checkSchemaQuery])
      | .ok (.rows rs) =>
        let schemaExists := rs.any (fun r => getV r "name" = Value.vStr (upperStr schemaName))
        let afterSchema : Except String Unit × List String :=
          if !schemaExists then
            match executeSQL O (createSchemaSQL databaseName schemaName) false with
            | .error e => (.error e, tr ++ [checkSchemaQuery, createSchemaSQL databaseName schemaName])
            | .ok _ => (.ok (), tr ++ [checkSchemaQuery, createSchemaSQL databaseName schemaName])
          else (.ok (), tr ++ [checkSchemaQuery])
        match afterSchema with
        | (.error e, tr2) => (.error e, tr2)
        | (.ok _, tr2) =>
          let useSchemaQuery := "USE SCHEMA " ++ databaseName ++ "." ++ schemaName
          match executeSQL O useSchemaQuery false with
          | .error e => (.error e, tr2 ++ [useSchemaQuery])
          | .ok _ => (.ok true, tr2 ++ [useSchemaQuery])

/-- `checkIfTableExists(tableName)` (`snowflake.js:459-470`): `SHOW
TABLES LIKE`, existing iff the row set is non-empty. -/
def checkIfTableExists (O : Oracle) (tableName : String) : Except String Bool × List String :=
  let q := "SHOW TABLES LIKE '" ++ tableName ++ "'"
  match executeSQL O q false with
  | .error e => (.error e, [q])
  | .ok (.rows rs) => (.ok (!rs.isEmpty), [q])
  | .ok (.fail _ _ _ _ _ _) => (.ok false, [q])

/-- `insertDummyRecord(tableName, dummyRecord)` (`snowflake.js:478-492`)
at its only call site (`{dummy_column: "dummy_value"}`): executes the
intentionally-invalid insert with `neverThrow`; a row-set result leaves
`result.data` undefined so the destructuring throws a TypeError; an
error result is the readiness signal iff it is exactly the
unknown-column compilation error `000904`/`42000`. -/
def insertDummyRecord (O : Oracle) (tableName : String) : Except String Bool × List String :=
  let q := "INSERT INTO " ++ tableName ++ " (dummy_column) VALUES ('dummy_value')"
  match executeSQL O q true with
  | .error e => (.error e, [q])
  | .ok (.rows _) => (.error "TypeError", [q])
  | .ok (.fail code _ _ ec ss ty) =>
      (.ok (code = "000904" && ec = "000904" && ss = "42000" && ty = "COMPILATION"), [q])

/-- The existence-polling loop of `waitForTableToBeReady`
(`snowflake.js:497-511`), with fuel: break on the first positive check,
return `false` when the bound is exhausted; the randomized sleeps do not
affect the outcome and are not modelled. -/
def waitExistsLoop (O : Oracle) (t : String) : Nat → Except String Bool × List String
  | 0 => (.ok false, [])
  | n + 1 =>
    match checkIfTableExists O t with
    | (.error e, tr) => (.error e, tr)
    | (.ok true, tr) => (.ok true, tr)
    | (.ok false, tr) =>
        if n = 0 then (.ok false, tr)
        else
          match waitExistsLoop O t n with
          | (r, tr2) => (r, tr ++ tr2)

/-- The dummy-insert polling loop of `waitForTableToBeReady`
(`snowflake.js:514-533`), with fuel: a positive dummy-insert signal
returns `true`; a negative signal or a thrown TypeError is caught and
retried; exhaustion returns `false`. -/
def waitInsertLoop (O : Oracle) (t : String) : Nat → Bool × List String
  | 0 => (false, [])
  | n + 1 =>
    match insertDummyRecord O t with
    | (.ok true, tr) => (true, tr)
    | (.ok false, tr) =>
        (match waitInsertLoop O t n with
         | (r, tr2) => (r, tr ++ tr2))
    | (.error _, tr) =>
        (match waitInsertLoop O t n with
         | (r, tr2) => (r, tr ++ tr2))

/-- `waitForTableToBeReady(tableName)` (`snowflake.js:494-535`) with the
default bounds `retries = 20`, `maxInsertAttempts = 20`. -/
def waitForTableToBeReady (O : Oracle) (t : String) : Except String Bool × List String :=
  match waitExistsLoop O t 20 with
  | (.error e, tr) => (.error e, tr)
  | (.ok false, tr) => (.ok false, tr)
  | (.ok true, tr) =>
      match waitInsertLoop O t 20 with
      | (r, tr2) => (.ok r, tr ++ tr2)

/-- One iteration of `verifyOrCreateTables` (`snowflake.js:374-398`): if
the table is absent, synthesize its definition from the Schema Registry
and create it, then run the readiness probe; if present, run the probe
directly. -/
def verifyOrCreateTableOne (O : Oracle) (ty table : String) : Except String Bool × List String :=
  match checkIfTableExists O table with
  | (.error e, tr) => (.error e, tr)
  | (.ok tableExists, tr) =>
    if !tableExists then
      match getSnowflakeSchema ty with
      | .error e => (.error e, tr)
      | .ok tableSchema =>
        let sqlSchema := String.intercalate ", " (tableSchema.map (fun f => f.name ++ " " ++ f.type))
        match executeSQL O (createTableSQL table sqlSchema) false with
        | .error e => (.error e, tr ++ [createTableSQL table sqlSchema])
        | .ok _ =>
          match waitForTableToBeReady O table with
          | (.error e, tr2) => (.error e, tr ++ [createTableSQL table sqlSchema] ++ tr2)
          | (.ok ready, tr2) => (.ok ready, tr ++ [createTableSQL table sqlSchema] ++ tr2)
    else
      match waitForTableToBeReady O table with
      | (.error e, tr2) => (.error e, tr ++ tr2)
      | (.ok ready, tr2) => (.ok ready, tr ++ tr2)

/-- `verifyOrCreateTables(tableNames)` (`snowflake.js:371-401`): the
sequential per-table loop collecting one Boolean per table. -/
def verifyOrCreateTables (O : Oracle) : List (String × String) → Except String (List Bool) × List String
  | [] => (.ok [], [])
  | (ty, table) :: rest =>
    match verifyOrCreateTableOne O ty table with
    | (.error e, tr) => (.error e, tr)
    | (.ok b, tr) =>
      match verifyOrCreateTables O rest with
      | (.error e, tr2) => (.error e, tr ++ tr2)
      | (.ok bs, tr2) => (.ok (b :: bs), tr ++ tr2)

/-- `verifyOrCreateStage()` (`snowflake.js:403-423`): `SHOW STAGES LIKE`;
when absent, create the stage and grant READ and WRITE to the configured
role; returns `true`. -/
def verifyOrCreateStage (cfg : SfConfig) (O : Oracle) : Except String Bool × List String :=
  let stage := optStr cfg.stage
  let checkStageQuery := "SHOW STAGES LIKE '" ++ stage ++ "'"
  match executeSQL O checkStageQuery false with
  | .error e => (.error e, [checkStageQuery])
  | .ok (.fail _ _ _ _ _ _) => (.error "Failed to check stage existence", [checkStageQuery])
  | .ok (.rows rs) =>
    if rs.isEmpty then
      match executeSQL O (createStageSQL stage) false with
      | .error e => (.error e, [checkStageQuery, createStageSQL stage])
      | .ok _ =>
        let grantReadQuery := "GRANT READ ON STAGE " ++ stage ++ " TO ROLE " ++ optStr cfg.role
        match executeSQL O grantReadQuery false with
        | .error e => (.error e, [checkStageQuery, createStageSQL stage, grantReadQuery])
        | .ok _ =>
          let grantWriteQuery := "GRANT WRITE ON STAGE " ++ stage ++ " TO ROLE " ++ optStr cfg.role
          match executeSQL O grantWriteQuery false with
          | .error e => (.error e, [checkStageQuery, createStageSQL stage, grantReadQuery, grantWriteQuery])
          | .ok _ => (.ok true, [checkStageQuery, createStageSQL stage, grantReadQuery, grantWriteQuery])
    else (.ok true, [checkStageQuery])

/-- `key.split("Table").shift()`: the part of the entry key before the
first occurrence of `Table` (structural, for the three keys
`eventTable` / `userTable` / `groupTable` this is the record kind). -/
def takeUntilTable (key : String) : String :=
  String.mk (takeUntilChars ("Table".data) key.data)

/-- One iteration of `verifyOrCreatePipe` (`snowflake.js:429-455`): the
key of `Object.entries(tableNames)` (for example `eventTable`) is split
on `Table` to recover the record kind for the registry lookup. -/
def verifyOrCreatePipeOne (cfg : SfConfig) (O : Oracle) (entryKey table : String) :
    Except String Unit × List String :=
  let pipe := optStr cfg.pipe
  let checkPipeQuery := "SHOW PIPES LIKE '" ++ pipe ++ "_" ++ table ++ "'"
  match executeSQL O checkPipeQuery false with
  | .error e => (.error e, [checkPipeQuery])
  | .ok res =>
    let missing := match res with
      | .rows rs => rs.isEmpty
      | .fail _ _ _ _ _ _ => true
    if missing then
      match getSnowflakeSchema (takeUntilTable entryKey) with
      | .error e => (.error e, [checkPipeQuery])
      | .ok schema =>
        let q := createPipeSQL pipe table (optStr cfg.stage) schema
        match executeSQL O q false with
        | .error e => (.error e, [checkPipeQuery, q])
        | .ok _ => (.ok (), [checkPipeQuery, q])
    else (.ok (), [checkPipeQuery])

/-- `verifyOrCreatePipe(tableNames)` (`snowflake.js:425-457`): the
per-table loop over `Object.entries(tableNames)`; returns `true`. -/
def verifyOrCreatePipe (cfg : SfConfig) (O : Oracle) (tn : TableNames) :
    Except String Bool × List String :=
  match verifyOrCreatePipeOne cfg O "eventTable" tn.eventTable with
  | (.error e, tr) => (.error e, tr)
  | (.ok _, tr) =>
    match verifyOrCreatePipeOne cfg O "userTable" tn.userTable with
    | (.error e, tr2) => (.error e, tr ++ tr2)
    | (.ok _, tr2) =>
      match verifyOrCreatePipeOne cfg O "groupTable" tn.groupTable with
      | (.error e, tr3) => (.error e, tr ++ tr2 ++ tr3)
      | (.ok _, tr3) => (.ok true, tr ++ tr2 ++ tr3)

/-- `createSnowpipeConnection()` (`snowflake.js:255-271`): build the
key-pair streaming-ingest client; a failure is caught and reported as
`false` (never rejects). -/
def createSnowpipeConnection (O : Oracle) : Bool × List String :=
  (O.snowpipeCreateOk, ["snowpipe:createAPI"])

/-- `initializeSnowflake(tableNames)` (`snowflake.js:151-252`): the
lazily-flagged bootstrap sequence.  Returns the readiness list, the
updated module state, and the backend-call trace.  Each conditional step
mirrors the source: connection (with validity check and diagnostic user
lookup), dataset, tables (setting `transport = "insert"`), then the
optional stage (`transport = "copy"`) and pipe (`transport = "pipe"` and
the separate streaming client), whose Booleans are pushed onto the
result only when the corresponding check actually ran. -/
def initializeSnowflake (cfg : SfConfig) (O : Oracle) (st : SfState) (tn : TableNames) :
    Except String (List Bool) × SfState × List String :=
  let step1 : Except String Unit × SfState × List String :=
    if !st.isConnectionReady then
      match createSnowflakeConnection cfg O with
      | (.error e, tr) => (.error e, st, tr)
      | (.ok connected, tr) =>
        if !connected then (.error "snowflake credentials verification failed.", st, tr)
        else
          let valid := O.isValidOk
          let (_user, trU) := getCurrentUser O
          let st1 := { st with isConnectionReady := valid }
          if !valid then
            (.error "snowflake connection is in an invalid state.", st1, tr ++ ["isValidAsync"] ++ trU)
          else (.ok (), st1, tr ++ ["isValidAsync"] ++ trU)
    else (.ok (), st, [])
  match step1 with
  | (.error e, st1, tr) => (.error e, st1, tr)
  | (.ok _, st1, tr) =>
    let step2 : Except String Unit × SfState × List String :=
      if !st1.isDatasetReady then
        match verifyOrCreateDatabase cfg O with
        | (.error e, tr2) => (.error e, st1, tr2)
        | (.ok b, tr2) =>
          let st2 := { st1 with isDatasetReady := b }
          if !b then (.error "Dataset verification or creation failed.", st2, tr2)
          else (.ok (), st2, tr2)
      else (.ok (), st1, [])
    match step2 with
    | (.error e, st2, tr2) => (.error e, st2, tr ++ tr2)
    | (.ok _, st2, tr2) =>
      let step3 : Except String Unit × SfState × List String :=
        if !st2.areTablesReady then
          match verifyOrCreateTables O
              [("track", tn.eventTable), ("user", tn.userTable), ("group", tn.groupTable)] with
          | (.error e, tr3) => (.error e, st2, tr3)
          | (.ok results, tr3) =>
            let ready := results.all id
            let st3 := { st2 with areTablesReady := ready }
            if !ready then (.error "Table verification or creation failed.", st3, tr3)
            else (.ok (), { st3 with transport := "insert" }, tr3)
        else (.ok (), st2, [])
      match step3 with
      | (.error e, st3, tr3) => (.error e, st3, tr ++ tr2 ++ tr3)
      | (.ok _, st3, tr3) =>
        let baseResult := [st3.isConnectionReady, st3.isDatasetReady, st3.areTablesReady]
        let step4 : Except String (List Bool) × SfState × List String :=
          if cfgTruthy cfg.stage then
            if !st3.isStageReady then
              match verifyOrCreateStage cfg O with
              | (.error e, tr4) => (.error e, st3, tr4)
              | (.ok b, tr4) =>
                  (.ok (baseResult ++ [b]),
                   { st3 with isStageReady := b, transport := "copy" }, tr4)
            else (.ok baseResult, st3, [])
          else (.ok baseResult, st3, [])
        match step4 with
        | (.error e, st4, tr4) => (.error e, st4, tr ++ tr2 ++ tr3 ++ tr4)
        | (.ok res4, st4, tr4) =>
          if cfgTruthy cfg.pipe then
            let step5 : Except String (List Bool) × SfState × List String :=
              if !st4.isPipeReady then
                match verifyOrCreatePipe cfg O tn with
                | (.error e, tr5) => (.error e, st4, tr5)
                | (.ok b, tr5) =>
                    (.ok (res4 ++ [b]),
                     { st4 with isPipeReady := b, transport := "pipe" }, tr5)
              else (.ok res4, st4, [])
            match step5 with
            | (.error e, st5, tr5) => (.error e, st5, tr ++ tr2 ++ tr3 ++ tr4 ++ tr5)
            | (.ok res5, st5, tr5) =>
              if !st5.isSnowPipeReady then
                match createSnowpipeConnection O with
                | (b, tr6) =>
                    (.ok (res5 ++ [b]), { st5 with isSnowPipeReady := b },
                     tr ++ tr2 ++ tr3 ++ tr4 ++ tr5 ++ tr6)
              else (.ok res5, st5, tr ++ tr2 ++ tr3 ++ tr4 ++ tr5)
          else (.ok res4, st4, tr ++ tr2 ++ tr3 ++ tr4)

/-- Modelled from the spec: `schematizeForWarehouse` lives in
`components/transforms.js`, which is not among the provided sources, and
the spec places the flattening/transform step out of scope (section 1).
It turns a batch of flat records into schema-aligned rows; the only
property the claims here rely on is that it maps records one-to-one
(preserving batch length, an empty batch staying empty), so it is
modelled as the identity on already-flattened records. -/
def schematizeForWarehouse (data : List RecordV) (_schema : Schema) : List RecordV :=
  data

/-- Modelled from the spec: `insertWithRetry` lives in
`components/retries.js`, which is not among the provided sources.  Per
spec section 4.4 the engine invokes the strategy, retries only
`TableLockedError`-classified rejections with backoff up to MAX_RETRIES,
and converts any other rejection, or exhaustion, into a terminal `error`
InsertResult (it never invents success); a resolved InsertResult is
returned as-is.  Under the deterministic oracle a retry repeats the same
outcome, so the engine is modelled as one strategy invocation whose
rejection becomes the terminal error result. -/
def insertWithRetry (run : Except String InsertResultV × List String) (batchLen : Nat) :
    InsertResultV × List String :=
  match run with
  | (.ok r, tr) => (r, tr)
  | (.error e, tr) =>
      ({ status := "error", insertedRows := 0, failedRows := (batchLen : Int),
         errorMessage := some e }, tr)

/-- `main(data, type, tableNames)` (`snowflake.js:92-138`): initialize
(throwing when any readiness Boolean is false), resolve the target table
from the record kind (throwing `Invalid Record Type` on an unrecognized
kind), look up the schema, schematize, dispatch on the cached transport,
and run the chosen strategy under the retry engine.  Wall-clock duration
stamping is not modelled. -/
def mainSnowflake (cfg : SfConfig) (O : Oracle) (st : SfState)
    (data : List RecordV) (ty : String) (tn : TableNames) :
    Except String InsertResultV × SfState × List String :=
  match initializeSnowflake cfg O st tn with
  | (.error e, st1, tr) => (.error e, st1, tr)
  | (.ok inits, st1, tr) =>
    if !(inits.all id) then (.error "Failed to initialize Snowflake middleware.", st1, tr)
    else
      let targetTableE : Except String String :=
        if ty = "track" then .ok tn.eventTable
        else if ty = "engage" then .ok tn.userTable
        else if ty = "groups" then .ok tn.groupTable
        else .error "Invalid Record Type"
      match targetTableE with
      | .error e => (.error e, st1, tr)
      | .ok targetTable =>
        match getSnowflakeSchema ty with
        | .error e => (.error e, st1, tr)
        | .ok schema =>
          let preparedData := schematizeForWarehouse data schema
          let runE : Except String (Except String InsertResultV × List String) :=
            if st1.transport = "insert" then
              .ok (match insertData O st1.transport preparedData targetTable schema with
                   | (r, trI) => (.ok r, trI))
            else if st1.transport = "copy" then
              .ok (copyIntoData O (optStr cfg.stage) st1.transport preparedData targetTable schema)
            else if st1.transport = "pipe" then
              .ok (insertWithPipe O (optStr cfg.database) (optStr cfg.schemaName)
                    (optStr cfg.pipe) (optStr cfg.stage) st1.transport preparedData targetTable schema)
            else if st1.transport = "task" then
              .ok (insertWithPut O (optStr cfg.stage) st1.transport preparedData targetTable schema)
            else .error "Invalid transport method"
          match runE with
          | .error e => (.error e, st1, tr)
          | .ok strat =>
            match insertWithRetry strat preparedData.length with
            | (result, trW) => (.ok result, st1, tr ++ trW)

/-- `dropTableResult?.[0]?.status`: the `status` field of the first
result row, `undefined` when there is none. -/
def statusOf : SqlOutcome → Value
  | .rows rs => getV (rs.headD []) "status"
  | .fail _ _ _ _ _ _ => Value.vUndef

/-- The per-table body of `dropTables` (`snowflake.js:996-1011`): drop
the table, its pipe (`<pipe>_<table>`, with an unset pipe rendering as
`undefined`), and its task, pushing each reported status; any rejection
of `executeSQL` propagates. -/
def dropResourcesForTable (cfg : SfConfig) (O : Oracle) (table : String) :
    Except String (List Value) × List String :=
  let q1 := "DROP TABLE IF EXISTS " ++ table
  match executeSQL O q1 false with
  | .error e => (.error e, [q1])
  | .ok r1 =>
    let q2 := "DROP PIPE IF EXISTS " ++ optStr cfg.pipe ++ "_" ++ table
    match executeSQL O q2 false with
    | .error e => (.error e, [q1, q2])
    | .ok r2 =>
      let q3 := "DROP TASK IF EXISTS " ++ optStr cfg.task ++ "_" ++ table ++ "_task"
      match executeSQL O q3 false with
      | .error e => (.error e, [q1, q2, q3])
      | .ok r3 => (.ok [statusOf r1, statusOf r2, statusOf r3], [q1, q2, q3])

/-- `dropTables(tableNames)` (`snowflake.js:994-1023`): the per-table
drops run under `Promise.all` followed by the shared stage drop; any
rejection rejects the whole call.  The source interleaves the three
per-table routines concurrently on the event loop; with a deterministic
per-statement oracle the collected statuses and the rejection behaviour
are interleaving-independent, so they are modelled sequentially.  On
success the summary object is `{numTablesDropped, tablesDropped}` (the
pushed statuses are scalars, so `results.flat()` is the identity). -/
def dropTables (cfg : SfConfig) (O : Oracle) (tn : TableNames) :
    Except String Value × List String :=
  match dropResourcesForTable cfg O tn.eventTable with
  | (.error e, tr) => (.error e, tr)
  | (.ok s1, tr) =>
    match dropResourcesForTable cfg O tn.userTable with
    | (.error e, tr2) => (.error e, tr ++ tr2)
    | (.ok s2, tr2) =>
      match dropResourcesForTable cfg O tn.groupTable with
      | (.error e, tr3) => (.error e, tr ++ tr2 ++ tr3)
      | (.ok s3, tr3) =>
        let qs := "DROP STAGE IF EXISTS " ++ optStr cfg.stage
        match executeSQL O qs false with
        | .error e => (.error e, tr ++ tr2 ++ tr3 ++ [qs])
        | .ok rs =>
          let results := s1 ++ s2 ++ s3 ++ [statusOf rs]
          (.ok (Value.vObj [("numTablesDropped", Value.vNum results.length),
                            ("tablesDropped", Value.vArr results)]),
           tr ++ tr2 ++ tr3 ++ [qs])

/-- The S3 host calls of the S3 adapter, as a deterministic oracle:
`listObjects` is the `ListObjectsV2` probe (its error carries
`error.message`), `localWriteOk` the local dummy-file write,
`getObject` yields the downloaded dummy contents, and `localContents`
the dummy file as read back from disk. -/
structure S3Oracle where
  listObjects : Except String Unit
  localWriteOk : Bool
  putObject : Except String Unit
  getObject : Except String String
  localContents : String
  deleteObjects : Except String Unit

/-- The module-level cached flags of the S3 adapter (`part_000:33-34`).
`isClientReady` is kept as a `Value` because `verifyS3Credentials` can
store a string in it. -/
structure S3State where
  isClientReady : Value := Value.vUndef
  canWriteToBucket : Value := Value.vUndef
deriving Repr, DecidableEq

/-- `verifyS3Credentials()` (`part_000:94-111`): construct the client and
list the configured bucket; on success resolve `true`; on failure
resolve `error.message` (the string itself, not `false`). -/
def verifyS3Credentials (O : S3Oracle) : Value × List String :=
  match O.listObjects with
  | .ok _ => (Value.vBool true, ["s3:ListObjectsV2"])
  | .error msg => (Value.vStr msg, ["s3:ListObjectsV2"])

/-- `verifyReadAndWritePermissions()` (`part_000:118-184`): write a local
dummy file, upload it, download it back, compare contents, and clean up;
`false` on any failure or mismatch, `true` when the round trip checks
out. -/
def verifyReadAndWritePermissions (O : S3Oracle) : Bool × List String :=
  if !O.localWriteOk then (false, [])
  else
    match O.putObject with
    | .error _ => (false, ["s3:PutObject"])
    | .ok _ =>
      match O.getObject with
      | .error _ => (false, ["s3:PutObject", "s3:GetObject"])
      | .ok contents =>
        if contents ≠ O.localContents then (false, ["s3:PutObject", "s3:GetObject"])
        else
          match O.deleteObjects with
          | .error _ => (false, ["s3:PutObject", "s3:GetObject", "s3:DeleteObjects"])
          | .ok _ => (true, ["s3:PutObject", "s3:GetObject", "s3:DeleteObjects"])

/-- `initializeS3(tableNames)` (`part_000:72-92`): verify credentials
unless already flagged, then verify bucket permissions unless already
flagged, throwing when either flag evaluates falsy; returns
`[isClientReady]`. -/
def initializeS3 (O : S3Oracle) (st : S3State) :
    Except String (List Value) × S3State × List String :=
  let step1 : Except String Unit × S3State × List String :=
    if !truthy st.isClientReady then
      match verifyS3Credentials O with
      | (v, tr) =>
        if !truthy v then
          (.error "S3 credentials verification failed.", { st with isClientReady := v }, tr)
        else (.ok (), { st with isClientReady := v }, tr)
    else (.ok (), st, [])
  match step1 with
  | (.error e, st1, tr) => (.error e, st1, tr)
  | (.ok _, st1, tr) =>
    if !truthy st1.canWriteToBucket then
      match verifyReadAndWritePermissions O with
      | (b, tr2) =>
        let st2 := { st1 with canWriteToBucket := Value.vBool b }
        if !b then (.error "Could not verify read/write bucket permissions.", st2, tr ++ tr2)
        else (.ok [st2.isClientReady], st2, tr ++ tr2)
    else (.ok [st1.isClientReady], st1, tr)

/-- The resource-creation statements the lifecycle manager issues, in
structured form (the rendered text of each constructor is exactly the
string the source builds, see `renderCreate`). -/
inductive CreateStmt where
  | orReplaceDatabase (db : String)
  | plainSchema (db schemaName : String)
  | orReplaceTable (table sqlSchema : String)
  | orReplaceStage (stage : String)
  | orReplacePipe (pipe table stage : String) (schema : Schema)
deriving Repr, DecidableEq

/-- The statement text of each structured creation statement, tying the
structured form to the strings built in `verifyOrCreateDatabase`,
`createTable`, `verifyOrCreateStage` and `verifyOrCreatePipe`. -/
def renderCreate : CreateStmt → String
  | .orReplaceDatabase db => createDatabaseSQL db
  | .plainSchema db s => createSchemaSQL db s
  | .orReplaceTable t sch => createTableSQL t sch
  | .orReplaceStage stg => createStageSQL stg
  | .orReplacePipe p t stg sch => createPipeSQL p t stg sch

/-- Association-list update used by the backend-state model. -/
def setAssoc {α : Type} (m : List (String × α)) (k : String) (v : α) : List (String × α) :=
  if m.any (fun p => p.1 = k) then m.map (fun p => if p.1 = k then (k, v) else p)
  else m ++ [(k, v)]

/-- Minimal state of the remote backend resources the creation
statements touch: stored rows per table, existing schema names, staged
files per stage, and pipe definitions. -/
structure BackendState where
  tables : List (String × List RecordV)
  schemas : List String
  stages : List (String × List String)
  pipes : List (String × String)
deriving Repr, DecidableEq

/-- Modelled from the Snowflake documentation (the backend is an external
collaborator): `CREATE OR REPLACE <resource>` succeeds whether or not
the resource exists, dropping any existing resource (and its contents)
and recreating it empty; `CREATE OR REPLACE DATABASE` replaces the whole
database, emptying everything in it; plain `CREATE SCHEMA` fails when
the schema already exists. -/
def applyCreate : CreateStmt → BackendState → Except String BackendState
  | .orReplaceDatabase _, _ =>
      .ok { tables := [], schemas := [], stages := [], pipes := [] }
  | .plainSchema _ s, B =>
      if B.schemas.contains s then .error ("Schema '" ++ s ++ "' already exists.")
      else .ok { B with schemas := B.schemas ++ [s] }
  | .orReplaceTable t _, B => .ok { B with tables := setAssoc B.tables t [] }
  | .orReplaceStage stg, B => .ok { B with stages := setAssoc B.stages stg [] }
  | .orReplacePipe p t stg sch, B =>
      .ok { B with pipes := setAssoc B.pipes (p ++ "_" ++ t) (renderCreate (.orReplacePipe p t stg sch)) }

/-- The spec-side record repair of section 4.2, stated from the spec
words rather than from the code: one pass over the fields, parsing each
variant-column string (leaving it as-is on parse failure). -/
def specRepairField (P : JsonPrims) (variantNames : List String) (p : String × Value) :
    String × Value :=
  if variantNames.contains p.1 then
    match p.2 with
    | .vStr s =>
        match P.parse s with
        | some v => (p.1, v)
        | none => p
    | _ => p
  else p

/-- The spec-side shaping of one record (section 4.2): repair the variant
columns, then null-normalize every field. -/
def specRepairRecord (P : JsonPrims) (schema : Schema) (row : RecordV) : RecordV :=
  (row.map (specRepairField P
    ((schema.filter (fun f => f.type = "VARIANT")).map (fun f => f.name)))).map normEntry

/-- A concrete fragment of `JSON.parse` for witnesses: the few strings
the witnesses exercise, agreeing with real JSON semantics on them. -/
def testPrims : JsonPrims where
  parse := fun s =>
    if s = "null" then some Value.vNull
    else if s = "[]" then some (Value.vArr [])
    else if s = "[1]" then some (Value.vArr [Value.vNum 1])
    else none

deriving instance DecidableEq for Except

/-! Fixtures: concrete oracles, configurations and states used by the
closed counterexamples and witnesses. -/

def tnX : TableNames := ⟨"ev", "us", "gr"⟩

def warmInsertState : SfState :=
  { isConnectionReady := true, isDatasetReady := true, areTablesReady := true,
    transport := "insert" }

def coldTablesState : SfState :=
  { isConnectionReady := true, isDatasetReady := true }

def oTables : Oracle where
  sql := fun q =>
    if q = "SHOW TABLES LIKE 'ev'" ∨ q = "SHOW TABLES LIKE 'us'" ∨ q = "SHOW TABLES LIKE 'gr'" then
      SqlOutcome.rows [[("name", Value.vStr "t")]]
    else if q = "INSERT INTO ev (dummy_column) VALUES ('dummy_value')"
        ∨ q = "INSERT INTO us (dummy_column) VALUES ('dummy_value')"
        ∨ q = "INSERT INTO gr (dummy_column) VALUES ('dummy_value')" then
      SqlOutcome.fail "000904" "OperationFailedError" "invalid identifier" "000904" "42000" "COMPILATION"
    else SqlOutcome.rows []
  connectOk := true
  isValidOk := true
  snowpipeCreateOk := true
  insertFileOk := true
  insertFileErrMsg := ""
  uid := "u"
  today := "2024-01-01"

def oEmptyInsert : Oracle where
  sql := fun q =>
    if q = (prepareInsertSQL eventsSchema "ev").1 then
      SqlOutcome.rows [[("number of rows inserted", Value.vNum 0)]]
    else SqlOutcome.rows []
  connectOk := true
  isValidOk := true
  snowpipeCreateOk := true
  insertFileOk := true
  insertFileErrMsg := ""
  uid := "u"
  today := "2024-01-01"

def oDropFail : Oracle where
  sql := fun q =>
    if q = "DROP TABLE IF EXISTS ev" then
      SqlOutcome.fail "X" "SomeError" "boom" "" "" ""
    else SqlOutcome.rows []
  connectOk := true
  isValidOk := true
  snowpipeCreateOk := true
  insertFileOk := true
  insertFileErrMsg := ""
  uid := "u"
  today := "2024-01-01"

def oAllRows : Oracle where
  sql := fun _ => SqlOutcome.rows []
  connectOk := true
  isValidOk := true
  snowpipeCreateOk := true
  insertFileOk := true
  insertFileErrMsg := ""
  uid := "u"
  today := "2024-01-01"

def oStage : Oracle where
  sql := fun q =>
    if q = "SHOW STAGES LIKE 'stg'" then SqlOutcome.rows [[("name", Value.vStr "stg")]]
    else SqlOutcome.rows []
  connectOk := true
  isValidOk := true
  snowpipeCreateOk := true
  insertFileOk := true
  insertFileErrMsg := ""
  uid := "u"
  today := "2024-01-01"

def cfgPlain : SfConfig := { database := some "db", schemaName := some "sc" }

def cfgStage : SfConfig := { database := some "db", schemaName := some "sc", stage := some "stg" }

def oExisting : Oracle where
  sql := fun q =>
    if q = "SHOW TABLES LIKE 'ev'" ∨ q = "SHOW STAGES LIKE 'stg'" then
      SqlOutcome.rows [[("name", Value.vStr "t")]]
    else if q = "INSERT INTO ev (dummy_column) VALUES ('dummy_value')" then
      SqlOutcome.fail "000904" "OperationFailedError" "invalid identifier" "000904" "42000" "COMPILATION"
    else SqlOutcome.rows []
  connectOk := true
  isValidOk := true
  snowpipeCreateOk := true
  insertFileOk := true
  insertFileErrMsg := ""
  uid := "u"
  today := "2024-01-01"

def stAllReady : SfState :=
  { isConnectionReady := true, isDatasetReady := true, areTablesReady := true,
    isStageReady := true, isPipeReady := true, isSnowPipeReady := true,
    transport := "copy" }

def o7 : S3Oracle where
  listObjects := Except.error "AccessDenied"
  localWriteOk := true
  putObject := Except.ok ()
  getObject := Except.ok "hello!"
  localContents := "hello!"
  deleteObjects := Except.ok ()

/-! Helper lemmas about the record operations and the shaping pass. -/

theorem getV_cons (a : String × Value) (r : RecordV) (k : String) :
    getV (a :: r) k = if a.1 = k then a.2 else getV r k := by
  by_cases h : a.1 = k <;> simp [getV, List.find?, h]

theorem setV_cons_ne (a : String × Value) (r : RecordV) (k : String) (v : Value)
    (h : a.1 ≠ k) : setV (a :: r) k v = a :: setV r k v := by
  by_cases hr : r.any (fun p => p.1 = k) <;>
    simp [setV, List.any_cons, h, hr]

theorem getV_setV_self (r : RecordV) (k : String) (v : Value) :
    getV (setV r k v) k = v := by
  induction r with
  | nil => simp [setV, getV, List.find?]
  | cons a rest ih =>
    by_cases h : a.1 = k
    · have : (a :: rest).any (fun p => p.1 = k) = true := by
        simp [List.any_cons, h]
      simp only [setV, this, if_true]
      simp [List.map_cons, h, getV_cons]
    · rw [setV_cons_ne a rest k v h, getV_cons]
      simp [h, ih]

theorem getV_map_keyUpdate (r : RecordV) (k k2 : String) (v : Value) (h : k2 ≠ k) :
    getV (r.map (fun p => if p.1 = k2 then (k2, v) else p)) k = getV r k := by
  induction r with
  | nil => simp
  | cons a rest ih =>
    by_cases ha : a.1 = k2
    · have hak : a.1 ≠ k := by rw [ha]; exact h
      simp only [List.map_cons, if_pos ha, getV_cons, hak, if_false, h, ih]
    · simp only [List.map_cons, if_neg ha, getV_cons, ih]

theorem getV_append_one_ne (r : RecordV) (k k2 : String) (v : Value) (h : k2 ≠ k) :
    getV (r ++ [(k2, v)]) k = getV r k := by
  induction r with
  | nil => simp [getV, List.find?, h]
  | cons a rest ih => simp only [List.cons_append, getV_cons, ih]

theorem getV_setV_ne (r : RecordV) (k k2 : String) (v : Value) (h : k2 ≠ k) :
    getV (setV r k2 v) k = getV r k := by
  by_cases hr : r.any (fun p => p.1 = k2)
  · simp only [setV, hr, if_true]
    exact getV_map_keyUpdate r k k2 v h
  · simp only [setV, hr, if_false, Bool.false_eq_true]
    exact getV_append_one_ne r k k2 v h


theorem repairStep_cases (P : JsonPrims) (r : RecordV) (col : Field) :
    repairStep P r col = r ∨ ∃ v, repairStep P r col = setV r col.name v := by
  unfold repairStep
  by_cases ht : truthy (getV r col.name)
  · rw [ht, if_pos rfl]
    cases getV r col.name
    all_goals try (left ; rfl)
    rename_i s
    show (match P.parse s with
          | some v => setV r col.name v
          | none => r) = r ∨
        ∃ v, (match P.parse s with
              | some v => setV r col.name v
              | none => r) = setV r col.name v
    cases P.parse s
    · left ; rfl
    · rename_i v
      right
      exact ⟨v, rfl⟩
  · rw [Bool.not_eq_true] at ht
    rw [ht]
    left
    rfl

theorem repairStep_not_truthy (P : JsonPrims) (r : RecordV) (col : Field)
    (h : truthy (getV r col.name) = false) : repairStep P r col = r := by
  unfold repairStep
  rw [h]
  rfl

theorem repairStep_str (P : JsonPrims) (r : RecordV) (col : Field) (s : String) (v : Value)
    (h : getV r col.name = Value.vStr s) (hs : s ≠ "") (hp : P.parse s = some v) :
    repairStep P r col = setV r col.name v := by
  unfold repairStep
  rw [h]
  have ht : truthy (Value.vStr s) = true := by simp [truthy, hs]
  rw [ht, if_pos rfl]
  show (match P.parse s with
        | some v => setV r col.name v
        | none => r) = setV r col.name v
  rw [hp]

theorem repairStep_str_bad (P : JsonPrims) (r : RecordV) (col : Field) (s : String)
    (h : getV r col.name = Value.vStr s) (hs : s ≠ "") (hp : P.parse s = none) :
    repairStep P r col = r := by
  unfold repairStep
  rw [h]
  have ht : truthy (Value.vStr s) = true := by simp [truthy, hs]
  rw [ht, if_pos rfl]
  show (match P.parse s with
        | some v => setV r col.name v
        | none => r) = r
  rw [hp]

theorem getV_repairStep_ne (P : JsonPrims) (r : RecordV) (col : Field) (k : String)
    (h : col.name ≠ k) : getV (repairStep P r col) k = getV r k := by
  rcases repairStep_cases P r col with he | ⟨v, he⟩
  · rw [he]
  · rw [he]
    exact getV_setV_ne r k col.name v h

theorem foldRepair_null_inv (P : JsonPrims) (hP : P.parse "null" = some Value.vNull)
    (cols : List Field) (r : RecordV) (k : String)
    (h : getV r k = Value.vStr "null" ∨ getV r k = Value.vNull) :
    getV (cols.foldl (repairStep P) r) k = Value.vStr "null" ∨
    getV (cols.foldl (repairStep P) r) k = Value.vNull := by
  induction cols generalizing r with
  | nil => exact h
  | cons c rest ih =>
    simp only [List.foldl_cons]
    apply ih
    by_cases hc : c.name = k
    · subst hc
      rcases h with h | h
      · rw [repairStep_str P r c "null" Value.vNull h (by decide) hP]
        right
        exact getV_setV_self r c.name Value.vNull
      · rw [repairStep_not_truthy P r c (by rw [h] ; rfl)]
        right
        exact h
    · rw [getV_repairStep_ne P r c k hc]
      exact h

theorem getV_map_normEntry_null (r : RecordV) (k : String)
    (h : getV r k = Value.vStr "null" ∨ getV r k = Value.vNull) :
    getV (r.map normEntry) k = Value.vNull := by
  induction r with
  | nil =>
      rcases h with h | h <;> simp [getV, List.find?] at h
  | cons a rest ih =>
    have hkey : (normEntry a).1 = a.1 := by
      unfold normEntry; split <;> rfl
    rw [List.map_cons, getV_cons, hkey]
    rw [getV_cons] at h
    by_cases hak : a.1 = k
    · rw [if_pos hak]
      rw [if_pos hak] at h
      rcases h with h | h <;> simp [normEntry, h, isNullLikeRow]
    · rw [if_neg hak]
      rw [if_neg hak] at h
      exact ih h

theorem variant_null_normalized (P : JsonPrims) (hP : P.parse "null" = some Value.vNull)
    (row : RecordV) (schema : Schema) (k : String)
    (h : getV row k = Value.vStr "null") :
    getV (prepareComplexRows P row schema) k = Value.vNull := by
  unfold prepareComplexRows
  exact getV_map_normEntry_null _ _
    (foldRepair_null_inv P hP _ row k (Or.inl h))


theorem truthy_getV_any (r : RecordV) (k : String)
    (h : truthy (getV r k) = true) : r.any (fun p => p.1 = k) = true := by
  induction r with
  | nil =>
    have hu : getV ([] : RecordV) k = Value.vUndef := rfl
    rw [hu] at h
    exact absurd h (by decide)
  | cons a rest ih =>
    rw [getV_cons] at h
    by_cases ha : a.1 = k
    · simp [List.any_cons, ha]
    · rw [if_neg ha] at h
      simp [List.any_cons, ih h]

theorem keys_setV (r : RecordV) (k : String) (v : Value)
    (h : r.any (fun p => p.1 = k) = true) :
    (setV r k v).map Prod.fst = r.map Prod.fst := by
  unfold setV
  rw [h, if_pos rfl, List.map_map]
  apply List.map_congr_left
  intro p _
  by_cases hp : p.1 = k
  · simp [hp]
  · simp [hp]

theorem repairStep_nonstr (P : JsonPrims) (r : RecordV) (col : Field)
    (h : ∀ s, getV r col.name ≠ Value.vStr s) : repairStep P r col = r := by
  unfold repairStep
  by_cases ht : truthy (getV r col.name)
  · rw [ht, if_pos rfl]
    cases hg : getV r col.name
    all_goals try rfl
    rename_i s
    exact absurd hg (h s)
  · rw [Bool.not_eq_true] at ht
    rw [ht]
    rfl

theorem keys_repairStep (P : JsonPrims) (r : RecordV) (col : Field) :
    (repairStep P r col).map Prod.fst = r.map Prod.fst := by
  unfold repairStep
  by_cases ht : truthy (getV r col.name)
  · rw [ht, if_pos rfl]
    have hany := truthy_getV_any r col.name ht
    cases getV r col.name
    all_goals try rfl
    rename_i s
    show (match P.parse s with
          | some v => setV r col.name v
          | none => r).map Prod.fst = r.map Prod.fst
    cases P.parse s
    · rfl
    · rename_i v
      exact keys_setV r col.name v hany
  · rw [Bool.not_eq_true] at ht
    rw [ht]
    rfl

theorem getV_of_mem_nodup (r : RecordV) (p : String × Value)
    (hn : (r.map Prod.fst).Nodup) (hp : p ∈ r) : getV r p.1 = p.2 := by
  induction r with
  | nil => cases hp
  | cons a rest ih =>
    rw [List.map_cons, List.nodup_cons] at hn
    rcases List.mem_cons.mp hp with h | h
    · subst h
      rw [getV_cons, if_pos rfl]
    · have hne : a.1 ≠ p.1 := by
        intro he
        exact hn.1 (he ▸ List.mem_map_of_mem Prod.fst h)
      rw [getV_cons, if_neg hne]
      exact ih hn.2 h

theorem specRepairField_not_mem (P : JsonPrims) (names : List String) (p : String × Value)
    (h : p.1 ∉ names) : specRepairField P names p = p := by
  unfold specRepairField
  rw [if_neg (by simpa using h)]

theorem specRepairField_cons_ne (P : JsonPrims) (names : List String) (cname : String)
    (p : String × Value) (h : p.1 ≠ cname) :
    specRepairField P (cname :: names) p = specRepairField P names p := by
  unfold specRepairField
  rw [List.contains_cons]
  simp [h]

theorem specRepairField_cons_noop (P : JsonPrims) (names : List String)
    (p : String × Value)
    (h : ∀ s, p.2 = Value.vStr s → P.parse s = none) :
    specRepairField P (p.1 :: names) p = p := by
  unfold specRepairField
  rw [if_pos (by simp [List.contains_cons])]
  cases hv : p.2
  all_goals try rfl
  rename_i s
  show (match P.parse s with
        | some v => (p.1, v)
        | none => p) = p
  rw [h s hv]

theorem specRepairField_cons_parse (P : JsonPrims) (names : List String)
    (p : String × Value) (s : String) (v : Value)
    (hv : p.2 = Value.vStr s) (hp : P.parse s = some v) :
    specRepairField P (p.1 :: names) p = (p.1, v) := by
  unfold specRepairField
  rw [if_pos (by simp [List.contains_cons]), hv]
  show (match P.parse s with
        | some w => (p.1, w)
        | none => p) = (p.1, v)
  rw [hp]


theorem foldRepair_eq_map (P : JsonPrims) (hP : P.parse "" = none)
    (cols : List Field) :
    ∀ (r : RecordV), (r.map Prod.fst).Nodup → (cols.map (fun f => f.name)).Nodup →
      cols.foldl (repairStep P) r = r.map (specRepairField P (cols.map (fun f => f.name))) := by
  induction cols with
  | nil =>
    intro r _ _
    have h1 : r.map (specRepairField P (([] : List Field).map (fun f => f.name))) = r.map id :=
      List.map_congr_left (fun p _ => by
        exact specRepairField_not_mem P _ p (by simp))
    rw [List.foldl_nil, h1, List.map_id]
  | cons c rest ih =>
    intro r hr hcn
    rw [List.map_cons, List.nodup_cons] at hcn
    obtain ⟨hcnot, hrest⟩ := hcn
    rw [List.foldl_cons]
    have hkeys : ((repairStep P r c).map Prod.fst).Nodup := by
      rw [keys_repairStep]
      exact hr
    rw [ih (repairStep P r c) hkeys hrest, List.map_cons]
    cases hg : getV r c.name
    case vStr s =>
      by_cases hs : s = ""
      · subst hs
        rw [repairStep_not_truthy P r c (by rw [hg] ; rfl)]
        apply List.map_congr_left
        intro p hpmem
        by_cases hpk : p.1 = c.name
        · have hg2 : getV r p.1 = p.2 := getV_of_mem_nodup r p hr hpmem
          rw [hpk, hg] at hg2
          rw [specRepairField_not_mem P _ p (hpk ▸ hcnot), ← hpk]
          exact (specRepairField_cons_noop P _ p (fun s2 hs2 => by
            rw [← hg2] at hs2
            cases hs2
            exact hP)).symm
        · exact (specRepairField_cons_ne P _ c.name p hpk).symm
      · cases hp : P.parse s
        · rw [repairStep_str_bad P r c s hg hs hp]
          apply List.map_congr_left
          intro p hpmem
          by_cases hpk : p.1 = c.name
          · have hg2 : getV r p.1 = p.2 := getV_of_mem_nodup r p hr hpmem
            rw [hpk, hg] at hg2
            rw [specRepairField_not_mem P _ p (hpk ▸ hcnot), ← hpk]
            exact (specRepairField_cons_noop P _ p (fun s2 hs2 => by
              rw [← hg2] at hs2
              cases hs2
              exact hp)).symm
          · exact (specRepairField_cons_ne P _ c.name p hpk).symm
        · rename_i v
          rw [repairStep_str P r c s v hg hs hp]
          have hany := truthy_getV_any r c.name (by rw [hg] ; simpa [truthy] using hs)
          have hsetV : setV r c.name v =
              r.map (fun p => if p.1 = c.name then (c.name, v) else p) := by
            unfold setV
            rw [hany, if_pos rfl]
          rw [hsetV, List.map_map]
          apply List.map_congr_left
          intro p hpmem
          by_cases hpk : p.1 = c.name
          · have hg2 : getV r p.1 = p.2 := getV_of_mem_nodup r p hr hpmem
            rw [hpk, hg] at hg2
            have hupd : (fun p => if p.1 = c.name then (c.name, v) else p) p = (c.name, v) := by
              simp [hpk]
            show specRepairField P (List.map (fun f => f.name) rest)
                ((fun p => if p.1 = c.name then (c.name, v) else p) p) =
              specRepairField P (c.name :: List.map (fun f => f.name) rest) p
            rw [hupd]
            rw [specRepairField_not_mem P _ (c.name, v) hcnot]
            rw [← hpk]
            exact (specRepairField_cons_parse P _ p s v hg2.symm hp).symm
          · have hupd : (fun p => if p.1 = c.name then (c.name, v) else p) p = p := by
              simp [hpk]
            show specRepairField P (List.map (fun f => f.name) rest)
                ((fun p => if p.1 = c.name then (c.name, v) else p) p) =
              specRepairField P (c.name :: List.map (fun f => f.name) rest) p
            rw [hupd]
            exact (specRepairField_cons_ne P _ c.name p hpk).symm
    all_goals {
      rw [repairStep_nonstr P r c (by
        intro s2 hcon
        rw [hg] at hcon
        cases hcon)]
      apply List.map_congr_left
      intro p hpmem
      by_cases hpk : p.1 = c.name
      · have hg2 : getV r p.1 = p.2 := getV_of_mem_nodup r p hr hpmem
        rw [hpk, hg] at hg2
        rw [specRepairField_not_mem P _ p (hpk ▸ hcnot), ← hpk]
        exact (specRepairField_cons_noop P _ p (fun s2 hs2 => by
          rw [← hg2] at hs2
          cases hs2)).symm
      · exact (specRepairField_cons_ne P _ c.name p hpk).symm
    }

theorem prepareComplexRows_eq_spec (P : JsonPrims) (hP : P.parse "" = none)
    (schema : Schema) (row : RecordV) (hr : (row.map Prod.fst).Nodup)
    (hs : ((schema.filter (fun f => f.type = "VARIANT")).map (fun f => f.name)).Nodup) :
    prepareComplexRows P row schema = specRepairRecord P schema row := by
  simp only [prepareComplexRows, specRepairRecord]
  rw [foldRepair_eq_map P hP _ row hr hs]

theorem insertDummyRecord_trace (O : Oracle) (t : String) :
    (insertDummyRecord O t).2 =
      ["INSERT INTO " ++ t ++ " (dummy_column) VALUES ('dummy_value')"] := by
  simp only [insertDummyRecord]
  cases hE : executeSQL O ("INSERT INTO " ++ t ++ " (dummy_column) VALUES ('dummy_value')") true with
  | error e => rfl
  | ok out => cases out <;> rfl

theorem waitInsertLoop_trace (O : Oracle) (t : String) :
    ∀ (n : Nat), ∀ q ∈ (waitInsertLoop O t n).2,
      q = "INSERT INTO " ++ t ++ " (dummy_column) VALUES ('dummy_value')" := by
  intro n
  induction n with
  | zero => intro q hq; cases hq
  | succ n ih =>
    intro q hq
    have htr := insertDummyRecord_trace O t
    rcases hI : insertDummyRecord O t with ⟨res, tr⟩
    rw [hI] at htr
    simp only at htr
    unfold waitInsertLoop at hq
    rw [hI] at hq
    rcases hW : waitInsertLoop O t n with ⟨r2, tr2⟩
    rw [hW] at hq
    cases res with
    | error e =>
      simp only [List.mem_append] at hq
      rcases hq with h | h
      · rw [htr] at h
        simpa using h
      · exact ih q (by rw [hW] ; exact h)
    | ok b =>
      cases b with
      | true =>
        rw [htr] at hq
        simpa using hq
      | false =>
        simp only [List.mem_append] at hq
        rcases hq with h | h
        · rw [htr] at h
          simpa using h
        · exact ih q (by rw [hW] ; exact h)

theorem waitExistsLoop_first (O : Oracle) (t : String) (n : Nat) (tr : List String)
    (h : checkIfTableExists O t = (.ok true, tr)) :
    waitExistsLoop O t (n + 1) = (.ok true, tr) := by
  unfold waitExistsLoop
  rw [h]

/-- C4 (counterexample): payload shaping is not a pure function on the
variant branch — `prepareComplexRows` rewrites the record object in
place, so after shaping a one-record batch whose variant `properties`
field holds the string `"null"`, the batch itself has changed (the field
is now actual null). -/
theorem c4_shaping_mutates :
    jsBatchShapeVariant testPrims usersSchema [[("properties", Value.vStr "null")]] ≠
      [[("properties", Value.vStr "null")]] ∧
    jsBatchShapeVariant testPrims usersSchema [[("properties", Value.vStr "null")]] =
      [[("properties", Value.vNull)]] := by
  constructor
  · decide
  · rfl

/-- C4 (amended): the non-variant branch only reads the records and
leaves the batch unmodified; the variant branch rewrites each record in
place, and the rewrite is exactly the spec section 4.2 repair (parse
variant-column strings, then null-normalize every field), provided keys
are unique and `JSON.parse` rejects the empty string. -/
theorem c4_shaping_frame (P : JsonPrims) (schema : Schema) (heap : BatchHeap)
    (hP : P.parse "" = none)
    (hrows : ∀ r ∈ heap, (r.map Prod.fst).Nodup)
    (hschema : ((schema.filter (fun f => f.type = "VARIANT")).map (fun f => f.name)).Nodup) :
    jsBatchShapeNonVariant P schema heap = heap ∧
    jsBatchShapeVariant P schema heap = heap.map (specRepairRecord P schema) := by
  refine ⟨rfl, ?_⟩
  unfold jsBatchShapeVariant
  exact List.map_congr_left fun r hr =>
    prepareComplexRows_eq_spec P hP schema r (hrows r hr) hschema

/-- C4 witness: the amended theorem applied at a concrete batch. -/
theorem c4_shaping_frame_witness :
    (testPrims.parse "" = none) ∧
    jsBatchShapeVariant testPrims usersSchema [[("properties", Value.vStr "null")]] =
      [[("properties", Value.vStr "null")]].map (specRepairRecord testPrims usersSchema) := by
  refine ⟨rfl, ?_⟩
  exact (c4_shaping_frame testPrims usersSchema [[("properties", Value.vStr "null")]]
    rfl (by decide) (by decide)).2

/-- C8: value normalization maps null, undefined, the empty string and
the literal string "null" to actual null; a variant column passes any
non-null-like value through untouched; a non-variant string that parses
as JSON is replaced by the parse result; and in the variant branch a
field holding the string "null" ends up as actual null in the shaped
record. -/
theorem c8_value_normalization (P : JsonPrims) :
    (∀ ty, formatBindValue P Value.vNull ty = Value.vNull
       ∧ formatBindValue P Value.vUndef ty = Value.vNull
       ∧ formatBindValue P (Value.vStr "") ty = Value.vNull
       ∧ formatBindValue P (Value.vStr "null") ty = Value.vNull) ∧
    (∀ v, isNullLikeBind v = false → formatBindValue P v "VARIANT" = v) ∧
    (∀ s v ty, ty ≠ "VARIANT" → isNullLikeBind (Value.vStr s) = false →
       P.parse s = some v → formatBindValue P (Value.vStr s) ty = v) ∧
    (P.parse "null" = some Value.vNull →
       ∀ row schema k, getV row k = Value.vStr "null" →
         getV (prepareComplexRows P row schema) k = Value.vNull) := by
  refine ⟨fun ty => ⟨rfl, rfl, rfl, rfl⟩, ?_, ?_, ?_⟩
  · intro v h
    unfold formatBindValue
    rw [h]
    rfl
  · intro s v ty hty h hp
    unfold formatBindValue
    rw [h]
    simp only [Bool.false_eq_true, if_false]
    rw [if_neg hty]
    simp [isJSONStr, hp]
  · intro hP row schema k h
    exact variant_null_normalized P hP row schema k h

/-- C8 witness: the normalization theorem applied at concrete values. -/
theorem c8_value_normalization_witness :
    (isNullLikeBind (Value.vStr "[1]") = false) ∧
    (testPrims.parse "[1]" = some (Value.vArr [Value.vNum 1])) ∧
    (testPrims.parse "null" = some Value.vNull) ∧
    (getV [("properties", Value.vStr "null")] "properties" = Value.vStr "null") ∧
    formatBindValue testPrims Value.vNull "STRING" = Value.vNull ∧
    formatBindValue testPrims (Value.vStr "[1]") "VARIANT" = Value.vStr "[1]" ∧
    formatBindValue testPrims (Value.vStr "[1]") "STRING" = Value.vArr [Value.vNum 1] ∧
    getV (prepareComplexRows testPrims [("properties", Value.vStr "null")] usersSchema)
      "properties" = Value.vNull := by
  refine ⟨by decide, by decide, by decide, rfl, ?_, ?_, ?_, ?_⟩
  · exact ((c8_value_normalization testPrims).1 "STRING").1
  · exact (c8_value_normalization testPrims).2.1 (Value.vStr "[1]") (by decide)
  · exact (c8_value_normalization testPrims).2.2.1 "[1]" (Value.vArr [Value.vNum 1]) "STRING"
      (by decide) (by decide) (by decide)
  · exact (c8_value_normalization testPrims).2.2.2 (by decide)
      [("properties", Value.vStr "null")] usersSchema "properties" rfl

/-- C9: with a variant column the insert statement parses and flattens a
single JSON-blob bind and projects every target column as
`value:<lowercased name> AS <original name>`; without one, a standard
positional parameterized insert is emitted; the COPY transport uses the
same lower-cased-source / original-cased-destination mapping with the
`$1:` accessor. -/
theorem c9_projection (schema : Schema) (table : String) :
    (schema.any (fun f => f.type = "VARIANT") = true →
      prepareInsertSQL schema table =
        ("INSERT INTO " ++ table ++ " SELECT "
          ++ String.intercalate ", "
              (schema.map (fun f => "value:" ++ lowerStr f.name ++ " AS " ++ f.name))
          ++ " FROM TABLE(FLATTEN(PARSE_JSON(?)))", true)) ∧
    (schema.any (fun f => f.type = "VARIANT") = false →
      prepareInsertSQL schema table =
        ("INSERT INTO " ++ table ++ " ("
          ++ String.intercalate ", " (schema.map (fun f => f.name))
          ++ ") VALUES ("
          ++ String.intercalate ", " (schema.map (fun _ => "?")) ++ ")", false)) ∧
    (∀ col : Field, copyColumnMapping col = "$1:" ++ lowerStr col.name ++ " AS " ++ col.name) := by
  have hv : ∀ f : Field, variantSelectPart f = "value:" ++ lowerStr f.name ++ " AS " ++ f.name := by
    intro f
    unfold variantSelectPart
    split <;> rfl
  refine ⟨?_, ?_, fun col => rfl⟩
  · intro h
    simp only [prepareInsertSQL, h, if_true]
    rw [List.map_congr_left (fun f _ => hv f)]
  · intro h
    simp only [prepareInsertSQL, h, Bool.false_eq_true, if_false]

/-- C9 witness: the projection theorem applied at the events schema. -/
theorem c9_projection_witness :
    (eventsSchema.any (fun f => f.type = "VARIANT") = true) ∧
    prepareInsertSQL eventsSchema "ev" =
      ("INSERT INTO " ++ "ev" ++ " SELECT "
        ++ String.intercalate ", "
            (eventsSchema.map (fun f => "value:" ++ lowerStr f.name ++ " AS " ++ f.name))
        ++ " FROM TABLE(FLATTEN(PARSE_JSON(?)))", true) := by
  exact ⟨by decide, (c9_projection eventsSchema "ev").1 (by decide)⟩

/-- C5: every write strategy that returns an InsertResult with a
terminal status (success or error, as opposed to rethrowing) reports
`insertedRows + failedRows = batch.length`; `insertData` always returns
terminally, and the file-based strategies return only on their full
success path. -/
theorem c5_row_accounting :
    (∀ (O : Oracle) (transport : String) (batch : List RecordV) (table : String) (schema : Schema),
       ((insertData O transport batch table schema).1.status = "success" ∨
        (insertData O transport batch table schema).1.status = "error") ∧
       (insertData O transport batch table schema).1.insertedRows +
         (insertData O transport batch table schema).1.failedRows = batch.length) ∧
    (∀ (O : Oracle) (stage transport : String) (batch : List RecordV) (table : String)
        (schema : Schema) (r : InsertResultV) (tr : List String),
       copyIntoData O stage transport batch table schema = (Except.ok r, tr) →
       r.status = "success" ∧ r.insertedRows + r.failedRows = batch.length) ∧
    (∀ (O : Oracle) (db sc pipe stage transport : String) (batch : List RecordV)
        (table : String) (schema : Schema) (r : InsertResultV) (tr : List String),
       insertWithPipe O db sc pipe stage transport batch table schema = (Except.ok r, tr) →
       r.status = "success" ∧ r.insertedRows + r.failedRows = batch.length) ∧
    (∀ (O : Oracle) (stage transport : String) (batch : List RecordV) (table : String)
        (schema : Schema) (r : InsertResultV) (tr : List String),
       insertWithPut O stage transport batch table schema = (Except.ok r, tr) →
       r.status = "success" ∧ r.insertedRows + r.failedRows = batch.length) := by
  refine ⟨?_, ?_, ?_, ?_⟩
  · intro O transport batch table schema
    cases hE : executeSQL O (prepareInsertSQL schema table).1 false with
    | ok res =>
      simp only [insertData, hE]
      exact ⟨Or.inl trivial, by omega⟩
    | error msg =>
      simp only [insertData, hE]
      exact ⟨Or.inr trivial, by omega⟩
  · intro O stage transport batch table schema r tr
    cases hput : executeSQL O
        ("PUT file://" ++ tempDir ++ "/" ++ stagedFileName O table ++ " " ++ ("@" ++ stage))
        false with
    | error e =>
      simp only [copyIntoData, hput]
      intro h
      injection h with h1 _
      exact Except.noConfusion h1
    | ok u =>
      cases hcopy : executeSQL O
          ("COPY INTO " ++ table ++ " FROM ( SELECT "
            ++ String.intercalate ", " (schema.map copyColumnMapping)
            ++ " FROM " ++ ("@" ++ stage) ++ "/" ++ stagedFileName O table
            ++ " ) FILE_FORMAT = (TYPE = 'JSON')") false with
      | error e =>
        simp only [copyIntoData, hput, hcopy]
        intro h
        injection h with h1 _
        exact Except.noConfusion h1
      | ok u2 =>
        cases hrem : executeSQL O
            ("REMOVE " ++ ("@" ++ stage) ++ "/" ++ stagedFileName O table) false with
        | error e =>
          simp only [copyIntoData, hput, hcopy, hrem]
          intro h
          injection h with h1 _
          exact Except.noConfusion h1
        | ok u3 =>
          simp only [copyIntoData, hput, hcopy, hrem]
          intro h
          injection h with h1 _
          injection h1 with h2
          rw [← h2]
          exact ⟨rfl, by simp⟩
  · intro O db sc pipe stage transport batch table schema r tr
    cases hput : executeSQL O
        ("PUT file://" ++ tempDir ++ "/" ++ stagedFileName O table ++ " " ++ ("@" ++ stage))
        false with
    | error e =>
      simp only [insertWithPipe, hput]
      intro h
      injection h with h1 _
      exact Except.noConfusion h1
    | ok u =>
      cases hn : O.insertFileOk with
      | false =>
        simp only [insertWithPipe, hput, hn]
        intro h
        injection h with h1 _
        exact Except.noConfusion h1
      | true =>
        simp only [insertWithPipe, hput, hn]
        intro h
        injection h with h1 _
        injection h1 with h2
        rw [← h2]
        exact ⟨rfl, by simp⟩
  · intro O stage transport batch table schema r tr
    cases hput : executeSQL O
        ("PUT file://" ++ tempDir ++ "/" ++ stagedFileName O table ++ " " ++ ("@" ++ stage))
        false with
    | error e =>
      simp only [insertWithPut, hput]
      intro h
      injection h with h1 _
      exact Except.noConfusion h1
    | ok u =>
      simp only [insertWithPut, hput]
      intro h
      injection h with h1 _
      injection h1 with h2
      rw [← h2]
      exact ⟨rfl, by simp⟩

/-- C5 witness: the accounting theorem applied to a concrete successful
copy call and a concrete empty-batch insert call. -/
theorem c5_row_accounting_witness :
    ((copyIntoData oAllRows "stg" "copy" [[("a", Value.vNum 1)]] "ev" eventsSchema).1 =
      Except.ok { status := "success", insertedRows := 1, failedRows := 0,
                  methodTag := some "copy" }) ∧
    ((1 : Int) + 0 = ([[("a", Value.vNum 1)]] : List RecordV).length) ∧
    ((insertData oAllRows "insert" [] "ev" eventsSchema).1.insertedRows +
      (insertData oAllRows "insert" [] "ev" eventsSchema).1.failedRows = 0) := by
  have h1 : (copyIntoData oAllRows "stg" "copy" [[("a", Value.vNum 1)]] "ev" eventsSchema).1 =
      Except.ok { status := "success", insertedRows := 1, failedRows := 0,
                  methodTag := some "copy" } := by decide
  have hpair : copyIntoData oAllRows "stg" "copy" [[("a", Value.vNum 1)]] "ev" eventsSchema =
      (Except.ok { status := "success", insertedRows := 1, failedRows := 0,
                   methodTag := some "copy" },
       (copyIntoData oAllRows "stg" "copy" [[("a", Value.vNum 1)]] "ev" eventsSchema).2) := by
    rw [← h1]
  have h2 := (c5_row_accounting.2.1 oAllRows "stg" "copy" [[("a", Value.vNum 1)]] "ev"
      eventsSchema _ _ hpair).2
  refine ⟨h1, ?_, (c5_row_accounting.1 oAllRows "insert" [] "ev" eventsSchema).2⟩
  simp at h2
  simp [h2]

/-- C1 (counterexample): on a cold adapter (tables not yet verified),
`main` with the unrecognized kind `"bogus"` does reach the
`Invalid Record Type` throw, but only after initialization has issued
backend calls — the call trace is non-empty, refuting "before any
backend call is made and with no side effects". -/
theorem c1_invalid_kind_after_backend_calls :
    (mainSnowflake cfgPlain oTables coldTablesState [] "bogus" tnX).1 =
      Except.error "Invalid Record Type" ∧
    (mainSnowflake cfgPlain oTables coldTablesState [] "bogus" tnX).2.2 ≠ [] := by
  constructor
  · rfl
  · decide

/-- C1 (amended): the unrecognized-kind error is thrown only after
`initializeSnowflake` completes; on an already-initialized adapter with
no optional transports configured the throw happens with no backend
call and no state change. -/
theorem c1_invalid_kind (cfg : SfConfig) (O : Oracle) (st : SfState)
    (data : List RecordV) (ty : String) (tn : TableNames)
    (h1 : st.isConnectionReady = true) (h2 : st.isDatasetReady = true)
    (h3 : st.areTablesReady = true)
    (h4 : cfgTruthy cfg.stage = false) (h5 : cfgTruthy cfg.pipe = false)
    (hty : ty ≠ "track" ∧ ty ≠ "engage" ∧ ty ≠ "groups") :
    mainSnowflake cfg O st data ty tn = (Except.error "Invalid Record Type", st, []) := by
  simp [mainSnowflake, initializeSnowflake, h1, h2, h3, h4, h5, hty.1, hty.2.1, hty.2.2]

/-- C1 witness: the amended theorem at a concrete warm state. -/
theorem c1_invalid_kind_witness :
    (warmInsertState.isConnectionReady = true ∧ cfgTruthy cfgPlain.stage = false ∧
      "bogus" ≠ "track") ∧
    mainSnowflake cfgPlain oAllRows warmInsertState [] "bogus" tnX =
      (Except.error "Invalid Record Type", warmInsertState, []) := by
  refine ⟨⟨rfl, rfl, by decide⟩, ?_⟩
  exact c1_invalid_kind cfgPlain oAllRows warmInsertState [] "bogus" tnX rfl rfl rfl rfl rfl
    ⟨by decide, by decide, by decide⟩

/-- C2 (counterexample): on a warm insert-transport adapter, `main` with
an empty track batch does return success with 0 inserted and 0 failed
rows, but it still executes the insert statement against the backend —
the trace holds exactly that statement, refuting "performs no backend
write call". -/
theorem c2_empty_batch_still_writes :
    (mainSnowflake cfgPlain oEmptyInsert warmInsertState [] "track" tnX).1 =
      Except.ok { status := "success", dest := some "snowflake", insertedRows := 0,
                  failedRows := 0, methodTag := some "insert" } ∧
    (mainSnowflake cfgPlain oEmptyInsert warmInsertState [] "track" tnX).2.2 =
      [(prepareInsertSQL eventsSchema "ev").1] := by
  constructor
  · decide
  · decide

/-- C2 (amended): with the insert transport on a warm adapter and a
backend that reports 0 rows inserted, `main` on an empty batch returns
`success` with 0 inserted and 0 failed rows — but the insert statement
is still executed (the trace is exactly that one statement). -/
theorem c2_empty_batch (cfg : SfConfig) (O : Oracle) (st : SfState) (tn : TableNames)
    (h1 : st.isConnectionReady = true) (h2 : st.isDatasetReady = true)
    (h3 : st.areTablesReady = true)
    (h4 : cfgTruthy cfg.stage = false) (h5 : cfgTruthy cfg.pipe = false)
    (h6 : st.transport = "insert")
    (hsql : O.sql (prepareInsertSQL eventsSchema tn.eventTable).1 =
      SqlOutcome.rows [[("number of rows inserted", Value.vNum 0)]]) :
    (mainSnowflake cfg O st [] "track" tn).1 =
      Except.ok { status := "success", dest := some "snowflake", insertedRows := 0,
                  failedRows := 0, methodTag := some "insert" } ∧
    (mainSnowflake cfg O st [] "track" tn).2.2 =
      [(prepareInsertSQL eventsSchema tn.eventTable).1] := by
  constructor <;>
    simp [mainSnowflake, initializeSnowflake, insertData, insertWithRetry, executeSQL,
      schematizeForWarehouse, getSnowflakeSchema, getV, h1, h2, h3, h4, h5, h6, hsql]

/-- C2 witness: the amended theorem at the concrete fixture. -/
theorem c2_empty_batch_witness :
    (warmInsertState.transport = "insert" ∧
     oEmptyInsert.sql (prepareInsertSQL eventsSchema tnX.eventTable).1 =
       SqlOutcome.rows [[("number of rows inserted", Value.vNum 0)]]) ∧
    (mainSnowflake cfgPlain oEmptyInsert warmInsertState [] "track" tnX).1 =
      Except.ok { status := "success", dest := some "snowflake", insertedRows := 0,
                  failedRows := 0, methodTag := some "insert" } := by
  refine ⟨⟨rfl, by decide⟩, ?_⟩
  exact (c2_empty_batch cfgPlain oEmptyInsert warmInsertState tnX rfl rfl rfl rfl rfl rfl
    (by decide)).1

/-- C3 (counterexample): duplicate creation is not contents-preserving:
the table-creation statement the lifecycle manager issues is
`CREATE OR REPLACE TABLE`, and applying it to a backend where the table
already holds a row leaves the table empty; plain `CREATE SCHEMA`
against an existing schema errors instead of being a safe no-op. -/
theorem c3_create_or_replace_destroys :
    createTableSQL "events" "event_name STRING" =
      "CREATE OR REPLACE TABLE events (event_name STRING)" ∧
    applyCreate (CreateStmt.orReplaceTable "events" "event_name STRING")
        { tables := [("events", [[("event_name", Value.vStr "e1")]])],
          schemas := ["SC"], stages := [], pipes := [] } =
      Except.ok { tables := [("events", [])], schemas := ["SC"], stages := [], pipes := [] } ∧
    ({ tables := [("events", [])], schemas := ["SC"], stages := [], pipes := [] } :
        BackendState) ≠
      { tables := [("events", [[("event_name", Value.vStr "e1")]])],
        schemas := ["SC"], stages := [], pipes := [] } ∧
    applyCreate (CreateStmt.plainSchema "db" "SC")
        { tables := [("events", [])], schemas := ["SC"], stages := [], pipes := [] } =
      Except.error "Schema 'SC' already exists." := by
  refine ⟨rfl, by decide, by decide, by decide⟩

/-- C3 (amended): creation statements are create-or-replace, not
create-if-absent: a duplicate attempt succeeds but replaces the
resource, emptying its contents (schema creation, the exception, is a
plain CREATE that fails on duplicates); safety relies on the preceding
existence check — a pre-existing table or stage is never re-created
(their verification traces contain only the existence probes). -/
theorem c3_create_semantics (t sch db scm stg role : String)
    (B : BackendState) (O : Oracle) (ty : String) (rs : List RecordV) (r0 : RecordV)
    (htab : O.sql ("SHOW TABLES LIKE '" ++ t ++ "'") = SqlOutcome.rows (r0 :: rs))
    (hstg : O.sql ("SHOW STAGES LIKE '" ++ stg ++ "'") = SqlOutcome.rows (r0 :: rs)) :
    (applyCreate (CreateStmt.orReplaceTable t sch) B =
      Except.ok { B with tables := setAssoc B.tables t [] }) ∧
    (createDatabaseSQL db = "CREATE OR REPLACE DATABASE " ++ db) ∧
    (createSchemaSQL db scm = "CREATE SCHEMA " ++ db ++ "." ++ scm) ∧
    (createTableSQL t sch = renderCreate (CreateStmt.orReplaceTable t sch)) ∧
    (createStageSQL stg = "CREATE OR REPLACE STAGE " ++ stg
      ++ " FILE_FORMAT = (TYPE = 'JSON') DIRECTORY = (ENABLE = TRUE)") ∧
    (applyCreate (CreateStmt.plainSchema db scm) B =
      if B.schemas.contains scm then Except.error ("Schema '" ++ scm ++ "' already exists.")
      else Except.ok { B with schemas := B.schemas ++ [scm] }) ∧
    (∀ q ∈ (verifyOrCreateTableOne O ty t).2,
       q = "SHOW TABLES LIKE '" ++ t ++ "'" ∨
       q = "INSERT INTO " ++ t ++ " (dummy_column) VALUES ('dummy_value')") ∧
    ((verifyOrCreateStage { stage := some stg, role := some role } O).2 =
       ["SHOW STAGES LIKE '" ++ stg ++ "'"]) := by
  refine ⟨rfl, rfl, rfl, rfl, rfl, rfl, ?_, ?_⟩
  · intro q hq
    have hcheck : checkIfTableExists O t = (.ok true, ["SHOW TABLES LIKE '" ++ t ++ "'"]) := by
      simp [checkIfTableExists, executeSQL, htab]
    have hwe : waitExistsLoop O t 20 = (.ok true, ["SHOW TABLES LIKE '" ++ t ++ "'"]) :=
      waitExistsLoop_first O t 19 _ hcheck
    rcases hW : waitInsertLoop O t 20 with ⟨r2, tr2⟩
    have hwf : waitForTableToBeReady O t =
        (.ok r2, ["SHOW TABLES LIKE '" ++ t ++ "'"] ++ tr2) := by
      simp only [waitForTableToBeReady, hwe, hW]
    simp only [verifyOrCreateTableOne, hcheck, hwf, Bool.not_true, Bool.false_eq_true,
      if_false] at hq
    simp only [List.append_assoc, List.mem_append, List.mem_singleton] at hq
    rcases hq with h | h | h
    · exact Or.inl h
    · exact Or.inl h
    · refine Or.inr ?_
      have := waitInsertLoop_trace O t 20 q (by rw [hW] ; exact h)
      exact this
  · simp [verifyOrCreateStage, executeSQL, hstg, optStr]

/-- C3 witness: the amended theorem at concrete resources and a backend
where the table and the stage already exist. -/
theorem c3_create_semantics_witness :
    (oExisting.sql ("SHOW TABLES LIKE 'ev'") = SqlOutcome.rows [[("name", Value.vStr "t")]]) ∧
    (oExisting.sql ("SHOW STAGES LIKE 'stg'") = SqlOutcome.rows [[("name", Value.vStr "t")]]) ∧
    (applyCreate (CreateStmt.orReplaceTable "ev" "event_name STRING")
        ⟨[("ev", [[("a", Value.vNull)]])], [], [], []⟩ =
      Except.ok ⟨setAssoc [("ev", [[("a", Value.vNull)]])] "ev" [], [], [], []⟩) ∧
    ((verifyOrCreateStage { stage := some "stg", role := some "r" } oExisting).2 =
      ["SHOW STAGES LIKE 'stg'"]) := by
  refine ⟨by decide, by decide, ?_, ?_⟩
  · exact (c3_create_semantics "ev" "event_name STRING" "db" "sc" "stg" "r"
      ⟨[("ev", [[("a", Value.vNull)]])], [], [], []⟩ oExisting "track" []
      [("name", Value.vStr "t")] (by decide) (by decide)).1
  · exact (c3_create_semantics "ev" "event_name STRING" "db" "sc" "stg" "r"
      ⟨[("ev", [[("a", Value.vNull)]])], [], [], []⟩ oExisting "track" []
      [("name", Value.vStr "t")] (by decide) (by decide)).2.2.2.2.2.2.2

/-- C6 (counterexample): `drop` is not best-effort — a single failing
DROP TABLE rejects the whole call after issuing only that statement;
no summary is returned and no further resource is attempted. -/
theorem c6_drop_aborts_early :
    dropTables cfgPlain oDropFail tnX =
      (Except.error "boom", ["DROP TABLE IF EXISTS ev"]) := by
  rfl

/-- C6 (amended): any failing deletion rejects the whole `drop` call
(outcomes before the failure are discarded); when every statement
succeeds, the summary object has the keys `numTablesDropped` and
`tablesDropped` (not `numResourcesDropped` / `resourcesDropped`),
counting all ten dropped resources for three tables. -/
theorem c6_drop_behavior (cfg : SfConfig) (O : Oracle) (tn : TableNames) :
    ((∀ q, O.sql q = SqlOutcome.rows []) →
      dropTables cfg O tn =
        (Except.ok (Value.vObj [("numTablesDropped", Value.vNum 10),
                                ("tablesDropped", Value.vArr (List.replicate 10 Value.vUndef))]),
         ["DROP TABLE IF EXISTS " ++ tn.eventTable,
          "DROP PIPE IF EXISTS " ++ optStr cfg.pipe ++ "_" ++ tn.eventTable,
          "DROP TASK IF EXISTS " ++ optStr cfg.task ++ "_" ++ tn.eventTable ++ "_task",
          "DROP TABLE IF EXISTS " ++ tn.userTable,
          "DROP PIPE IF EXISTS " ++ optStr cfg.pipe ++ "_" ++ tn.userTable,
          "DROP TASK IF EXISTS " ++ optStr cfg.task ++ "_" ++ tn.userTable ++ "_task",
          "DROP TABLE IF EXISTS " ++ tn.groupTable,
          "DROP PIPE IF EXISTS " ++ optStr cfg.pipe ++ "_" ++ tn.groupTable,
          "DROP TASK IF EXISTS " ++ optStr cfg.task ++ "_" ++ tn.groupTable ++ "_task",
          "DROP STAGE IF EXISTS " ++ optStr cfg.stage])) ∧
    (∀ c nm msg ec ss ty2,
       O.sql ("DROP TABLE IF EXISTS " ++ tn.eventTable) = SqlOutcome.fail c nm msg ec ss ty2 →
       ¬(c = "000625" ∧ nm = "OperationFailedError" ∧ strContains msg "has locked table" = true) →
       dropTables cfg O tn =
         (Except.error msg, ["DROP TABLE IF EXISTS " ++ tn.eventTable])) := by
  constructor
  · intro hok
    simp [dropTables, dropResourcesForTable, executeSQL, hok, statusOf, getV]
  · intro c nm msg ec ss ty2 hfail hnl
    simp only [dropTables, dropResourcesForTable, executeSQL, hfail, if_neg hnl]
    rfl

/-- C6 witness: the amended theorem at an all-success oracle and at the
failing oracle. -/
theorem c6_drop_behavior_witness :
    (∀ q, oAllRows.sql q = SqlOutcome.rows []) ∧
    (dropTables cfgPlain oAllRows tnX).1 =
      Except.ok (Value.vObj [("numTablesDropped", Value.vNum 10),
                             ("tablesDropped", Value.vArr (List.replicate 10 Value.vUndef))]) ∧
    (oDropFail.sql "DROP TABLE IF EXISTS ev" = SqlOutcome.fail "X" "SomeError" "boom" "" "" "") ∧
    dropTables cfgPlain oDropFail tnX =
      (Except.error "boom", ["DROP TABLE IF EXISTS ev"]) := by
  refine ⟨fun q => rfl, ?_, by decide, ?_⟩
  · rw [(c6_drop_behavior cfgPlain oAllRows tnX).1 (fun q => rfl)]
  · exact (c6_drop_behavior cfgPlain oDropFail tnX).2 "X" "SomeError" "boom" "" "" ""
      (by decide) (by decide)

/-- C7 (code evaluated at the failing input): when bucket listing fails,
`verifyS3Credentials` resolves the error message (a truthy string)
instead of `false`, so `initializeS3` returns normally — caching the
string in `isClientReady` — and a subsequent call skips credential
verification entirely (its trace is empty), contradicting "throws on
that call and on every subsequent call until credentials verify". -/
theorem c7_s3_init_swallows_credential_failure :
    initializeS3 o7 {} =
      (Except.ok [Value.vStr "AccessDenied"],
       { isClientReady := Value.vStr "AccessDenied", canWriteToBucket := Value.vBool true },
       ["s3:ListObjectsV2", "s3:PutObject", "s3:GetObject", "s3:DeleteObjects"]) ∧
    initializeS3 o7 { isClientReady := Value.vStr "AccessDenied",
                      canWriteToBucket := Value.vBool true } =
      (Except.ok [Value.vStr "AccessDenied"],
       { isClientReady := Value.vStr "AccessDenied", canWriteToBucket := Value.vBool true },
       []) := by
  constructor <;> rfl

/-- C10: when every readiness flag is already true, `initializeSnowflake`
returns exactly the three base Booleans (with no backend call and no
state change), for any configuration; and under an unchanged
stage-configured setup a call that actually performs the stage check
returns four Booleans while the next call returns three — the length of
the result is not fixed across calls. -/
theorem c10_init_result_shape (cfg : SfConfig) (O : Oracle) (st : SfState) (tn : TableNames)
    (h1 : st.isConnectionReady = true) (h2 : st.isDatasetReady = true)
    (h3 : st.areTablesReady = true) (h4 : st.isStageReady = true)
    (h5 : st.isPipeReady = true) (h6 : st.isSnowPipeReady = true) :
    initializeSnowflake cfg O st tn = (Except.ok [true, true, true], st, []) ∧
    initializeSnowflake cfgStage oStage warmInsertState tnX =
      (Except.ok [true, true, true, true],
       { warmInsertState with isStageReady := true, transport := "copy" },
       ["SHOW STAGES LIKE 'stg'"]) ∧
    initializeSnowflake cfgStage oStage
        { warmInsertState with isStageReady := true, transport := "copy" } tnX =
      (Except.ok [true, true, true],
       { warmInsertState with isStageReady := true, transport := "copy" }, []) := by
  refine ⟨?_, by rfl, by rfl⟩
  simp [initializeSnowflake, h1, h2, h3, h4, h5, h6]

/-- C10 witness: the warm-call theorem at a concrete all-ready state. -/
theorem c10_init_result_shape_witness :
    (stAllReady.isConnectionReady = true ∧ stAllReady.isStageReady = true ∧
     stAllReady.isSnowPipeReady = true) ∧
    initializeSnowflake cfgStage oAllRows stAllReady tnX =
      (Except.ok [true, true, true], stAllReady, []) := by
  refine ⟨⟨rfl, rfl, rfl⟩, ?_⟩
  exact (c10_init_result_shape cfgStage oAllRows stAllReady tnX rfl rfl rfl rfl rfl rfl).1

end MixpanelDWH
